import Mathlib

/-!
# KYC intake form: step controller, payload transform and submission workflow

A shallow embedding of the state and workflow logic of `src/pages/kyc-form.js`
(the `KYCForm` component): the React state cells become one `State` record, every
handler becomes a function on that record that also returns the list of effects
it performs (console output, the request, the alert), and the remote endpoint's
behaviour is an explicit argument.
-/

namespace KYCForm

/-! ## JavaScript values -/

/-- A value produced by `response.json()` or read from one of its properties.
An object is kept as its own properties, each name once.  A number is kept as the two
things this code observes of it: whether it is truthy (neither zero nor NaN) and its
string conversion. -/
inductive JSVal where
  | undefined : JSVal
  | null : JSVal
  | bool (b : Bool) : JSVal
  | num (nonzero : Bool) (text : String) : JSVal
  | str (s : String) : JSVal
  | arr (items : List JSVal) : JSVal
  | obj (props : List (String × JSVal)) : JSVal

/-- An error object: what `new Error(..)` builds, what the engine raises, and what
`fetch` and `response.json()` reject with. -/
structure JSError where
  name : String
  message : String
deriving DecidableEq, Repr

/-- JavaScript truthiness (`!x`, `x || y`). -/
def JSVal.truthy : JSVal → Bool
  | .undefined => false
  | .null => false
  | .bool b => b
  | .num nonzero _ => nonzero
  | .str s => s != ""
  | .arr _ => true
  | .obj _ => true

/-- The `TypeError` the engine raises when an object has no usable conversion (the
message is V8's wording). -/
def cannotConvert : JSError :=
  ⟨"TypeError", "Cannot convert object to primitive value"⟩

mutual
/-- String conversion (`String(x)`), as applied by `new Error(x)` to its argument.  An
object is converted by its `toString` member: the inherited one gives
"[object Object]"; an own property of that name, which in a parsed JSON text is
never a function, hides it, the inherited `valueOf` gives back the object, and the
conversion raises a `TypeError`.  An array is converted by `join`. -/
def JSVal.toStr : JSVal → Except JSError String
  | .undefined => .ok "undefined"
  | .null => .ok "null"
  | .bool b => .ok (if b then "true" else "false")
  | .num _ text => .ok text
  | .str s => .ok s
  | .arr items => JSVal.joinItems items
  | .obj props =>
      if (props.lookup "toString").isSome then .error cannotConvert
      else .ok "[object Object]"
/-- The string conversion of an array is `Array.prototype.join`: the items, converted
from first to last, separated by commas, with `null` and `undefined` items rendered
as the empty string. -/
def JSVal.joinItems : List JSVal → Except JSError String
  | [] => .ok ""
  | [x] => JSVal.itemStr x
  | x :: y :: rest =>
      match JSVal.itemStr x with
      | .error e => .error e
      | .ok first =>
        match JSVal.joinItems (y :: rest) with
        | .error e => .error e
        | .ok others => .ok (first ++ "," ++ others)
/-- One array item inside `join`. -/
def JSVal.itemStr : JSVal → Except JSError String
  | .undefined => .ok ""
  | .null => .ok ""
  | .bool b => .ok (if b then "true" else "false")
  | .num _ text => .ok text
  | .str s => .ok s
  | .arr items => JSVal.joinItems items
  | .obj props =>
      if (props.lookup "toString").isSome then .error cannotConvert
      else .ok "[object Object]"
end

/-- Reading a property `v.key`.  On `null` and `undefined` the engine raises a
`TypeError` (the message is V8's wording).  On an object the own property is
returned, or `undefined` when there is none.  On every other value the lookup goes to
the built-in prototypes, which define none of the names this program reads
(`success`, `error`, `did`, `address`, `verifiableCredentials`, `publishResult`,
`kycTimestamp`, `explorerUrl`, `transactionHash`), so the result is `undefined`. -/
def JSVal.readProp (v : JSVal) (key : String) : Except JSError JSVal :=
  match v with
  | .undefined =>
      .error ⟨"TypeError", "Cannot read properties of undefined (reading '" ++ key ++ "')"⟩
  | .null =>
      .error ⟨"TypeError", "Cannot read properties of null (reading '" ++ key ++ "')"⟩
  | .obj props => .ok ((props.lookup key).getD .undefined)
  | _ => .ok .undefined

/-- The expression `a || b`. -/
def JSVal.orElse (a b : JSVal) : JSVal :=
  if a.truthy then a else b

/-- The expression `new Error(text)` for a text. -/
def errorOf (text : String) : JSError :=
  ⟨"Error", text⟩

/-- The expression `new Error(message)`: the message is converted to a string, which
can raise; without a message (`undefined`) the text is empty. -/
def newError (message : JSVal) : Except JSError JSError :=
  match message with
  | .undefined => .ok (errorOf "")
  | m =>
    match m.toStr with
    | .error e => .error e
    | .ok text => .ok (errorOf text)

/-- The error that leaves the statement `throw new Error(message)`: the new error,
or the one raised while it is built. -/
def thrownBy (message : JSVal) : JSError :=
  match newError message with
  | .ok e => e
  | .error e => e

/-! ## Form data -/

/-- A locally selected file (an opaque handle). -/
structure FileRef where
  name : String
deriving DecidableEq, Repr

/-- What a form field can hold: the text of an input, the flag of a checkbox, a
selected file, the `null` that file fields start with, or `undefined`. -/
inductive FieldValue where
  | text (s : String) : FieldValue
  | flag (b : Bool) : FieldValue
  | file (f : FileRef) : FieldValue
  | null : FieldValue
  | undefined : FieldValue
deriving DecidableEq, Repr

/-- The `formData` object: its properties in insertion order. -/
abbrev FormData := List (String × FieldValue)

/-- The read `formData.key`: `undefined` for a missing property. -/
def FormData.get (fd : FormData) (key : String) : FieldValue :=
  (fd.lookup key).getD .undefined

/-- The object `{ ...prev, [key]: v }`: an existing property keeps its place and takes
the new value, a new one is appended. -/
def FormData.set : FormData → String → FieldValue → FormData
  | [], key, v => [(key, v)]
  | (k, w) :: rest, key, v =>
      if k = key then (k, v) :: rest else (k, w) :: FormData.set rest key v

/-- The initial value of the `formData` state cell. -/
def initialFormData : FormData :=
  [ ("firstName", .text ""), ("lastName", .text ""), ("dateOfBirth", .text ""),
    ("nationality", .text ""), ("phoneNumber", .text ""), ("email", .text ""),
    ("gender", .text ""), ("placeOfBirth", .text ""),
    ("identityDocType", .text ""), ("identityDocument", .null),
    ("documentNumber", .text ""), ("issueDate", .text ""), ("expiryDate", .text ""),
    ("street", .text ""), ("city", .text ""), ("state", .text ""),
    ("postalCode", .text ""), ("country", .text ""), ("addressDocument", .null),
    ("incomeRange", .text ""), ("employmentStatus", .text ""),
    ("sourceOfFunds", .text ""), ("employer", .text ""), ("payslip", .null),
    ("dataProcessing", .flag false), ("kycVerification", .flag false),
    ("dataSharing", .flag false), ("termsOfService", .flag false),
    ("privacyPolicy", .flag false) ]

/-! ## The backend payload -/

structure PersonalInfo where
  firstName : FieldValue
  lastName : FieldValue
  dateOfBirth : FieldValue
  nationality : FieldValue
  phoneNumber : FieldValue
  email : FieldValue
  gender : FieldValue
  placeOfBirth : FieldValue
deriving DecidableEq, Repr

structure IdentityDocument where
  type : FieldValue
  documentNumber : FieldValue
  issueDate : FieldValue
  expiryDate : FieldValue
  file : FieldValue
deriving DecidableEq, Repr

structure AddressData where
  street : FieldValue
  city : FieldValue
  state : FieldValue
  postalCode : FieldValue
  country : FieldValue
deriving DecidableEq, Repr

structure AddressProofDocument where
  type : String
  issueDate : String
  file : FieldValue
deriving DecidableEq, Repr

structure FinancialInfo where
  incomeRange : FieldValue
  employmentStatus : FieldValue
  sourceOfFunds : FieldValue
  employer : FieldValue
deriving DecidableEq, Repr

structure Consents where
  dataProcessing : FieldValue
  kycVerification : FieldValue
  dataSharing : FieldValue
  termsOfService : FieldValue
  privacyPolicy : FieldValue
  ipAddress : String
deriving DecidableEq, Repr

/-- The object built by `transformToBackendFormat`. -/
structure Payload where
  personalInfo : PersonalInfo
  identityDocuments : List IdentityDocument
  addressData : AddressData
  addressProofDocument : AddressProofDocument
  financialInfo : FinancialInfo
  consents : Consents
deriving DecidableEq, Repr

/-- The expression `iso.split("T")[0]` on the text of `new Date().toISOString()`. -/
def isoDatePart (iso : String) : String :=
  (iso.splitOn "T").headD ""

/-- The function `transformToBackendFormat`; `nowISO` is the text that
`new Date().toISOString()` gives at the time of the call. -/
def transformToBackendFormat (nowISO : String) (formData : FormData) : Payload :=
  { personalInfo :=
      { firstName := formData.get "firstName"
        lastName := formData.get "lastName"
        dateOfBirth := formData.get "dateOfBirth"
        nationality := formData.get "nationality"
        phoneNumber := formData.get "phoneNumber"
        email := formData.get "email"
        gender := formData.get "gender"
        placeOfBirth := formData.get "placeOfBirth" }
    identityDocuments :=
      [ { type :=
            if formData.get "identityDocType" = .text "national_id"
            then .text "government_id"
            else formData.get "identityDocType"
          documentNumber := formData.get "documentNumber"
          issueDate := formData.get "issueDate"
          expiryDate := formData.get "expiryDate"
          file := formData.get "identityDocument" } ]
    addressData :=
      { street := formData.get "street"
        city := formData.get "city"
        state := formData.get "state"
        postalCode := formData.get "postalCode"
        country := formData.get "country" }
    addressProofDocument :=
      { type := "utility_bill"
        issueDate := isoDatePart nowISO
        file := formData.get "addressDocument" }
    financialInfo :=
      { incomeRange := formData.get "incomeRange"
        employmentStatus := formData.get "employmentStatus"
        sourceOfFunds := formData.get "sourceOfFunds"
        employer := formData.get "employer" }
    consents :=
      { dataProcessing := formData.get "dataProcessing"
        kycVerification := formData.get "kycVerification"
        dataSharing := formData.get "dataSharing"
        termsOfService := formData.get "termsOfService"
        privacyPolicy := formData.get "privacyPolicy"
        ipAddress := "unknown" } }

/-! ## The endpoint -/

/-- The outcome of `response.json()`: the promise rejects (the body is not a JSON
text), or it resolves to the parsed value. -/
inductive Body where
  | unparseable (err : JSError) : Body
  | parsed (v : JSVal) : Body

/-- What the code reads of a response: its status and its body. -/
structure Response where
  status : Nat
  body : Body

/-- The getter `response.ok`: the status is in the range 200 to 299. -/
def Response.ok (r : Response) : Bool :=
  decide (200 ≤ r.status ∧ r.status ≤ 299)

/-- The behaviour of `fetch("/api/kyc-submit", ..)` for one call: the promise rejects
(no response), or it resolves to a response. -/
inductive Endpoint where
  | rejects (err : JSError) : Endpoint
  | responds (response : Response) : Endpoint

/-- The record returned by `submitKYCData` and kept in the `submitResult` cell. -/
structure SubmitResult where
  did : JSVal
  address : JSVal
  verifiableCredentials : JSVal
  publishResult : JSVal
  kycTimestamp : JSVal

/-! ## Component state and effects -/

/-- The state cells of the component that the workflow reads and writes. -/
structure State where
  currentStep : Int
  isSubmitting : Bool
  submitResult : Option SubmitResult
  formData : FormData
  errors : List (String × String)

/-- The number of intake steps. -/
def totalSteps : Int := 5

/-- The state of a freshly mounted form. -/
def initialState : State :=
  { currentStep := 1
    isSubmitting := false
    submitResult := none
    formData := initialFormData
    errors := [] }

/-- What a handler does besides writing state, in the order it does it. -/
inductive Effect where
  | preventDefault : Effect
  | consoleLog (text : String) : Effect
  | consoleLogPayload (text : String) (kycData : Payload) : Effect
  | consoleLogValue (text : String) (v : JSVal) : Effect
  | consoleError (text : String) (err : JSError) : Effect
  | fetch (url : String) (method : String) (body : Payload) : Effect
  | alert (text : String) : Effect

/-- The texts of the alerts in a list of effects. -/
def alerts : List Effect → List String
  | [] => []
  | .alert text :: rest => text :: alerts rest
  | _ :: rest => alerts rest

/-- The payloads of the requests in a list of effects. -/
def requests : List Effect → List Payload
  | [] => []
  | .fetch _ _ body :: rest => body :: requests rest
  | _ :: rest => requests rest

/-- The payloads written to the console in a list of effects. -/
def loggedPayloads : List Effect → List Payload
  | [] => []
  | .consoleLogPayload _ kycData :: rest => kycData :: loggedPayloads rest
  | _ :: rest => loggedPayloads rest

/-! ## Step navigation -/

/-- The function `validateStep`: it empties the error map and reports valid. -/
def validateStep (_step : Int) (s : State) : State × Bool :=
  ({ s with errors := [] }, true)

/-- The handler `nextStep`. -/
def nextStep (s : State) : State :=
  match validateStep s.currentStep s with
  | (s1, true) => { s1 with currentStep := min (s1.currentStep + 1) totalSteps }
  | (s1, false) => s1

/-- The handler `prevStep`. -/
def prevStep (s : State) : State :=
  { s with currentStep := max (s.currentStep - 1) 1 }

/-! ## Submission -/

/-- What `submitKYCData` does before its first `await`: it logs the payload and sends
the request (the payload stands for its `JSON.stringify` text). -/
def submitKYCData.request (kycData : Payload) : List Effect :=
  [ .consoleLogPayload "🚀 Submitting KYC Data to real system:" kycData,
    .fetch "/api/kyc-submit" "POST" kycData ]

/-- The `try` block of `submitKYCData` from the first `await` on: the parsed body
together with the record built from it, or the error raised. -/
def submitKYCData.attempt (ep : Endpoint) : Except JSError (JSVal × SubmitResult) :=
  match ep with
  | .rejects err => .error err
  | .responds response =>
    match response.body with
    | .unparseable err => .error err
    | .parsed result => do
      if !response.ok then
        let error ← result.readProp "error"
        let raised ← newError (error.orElse (.str ("HTTP " ++ toString response.status)))
        throw raised
      let success ← result.readProp "success"
      if !success.truthy then
        let error ← result.readProp "error"
        let raised ← newError (error.orElse (.str "KYC submission failed"))
        throw raised
      let did ← result.readProp "did"
      let address ← result.readProp "address"
      let verifiableCredentials ← result.readProp "verifiableCredentials"
      let publishResult ← result.readProp "publishResult"
      let kycTimestamp ← result.readProp "kycTimestamp"
      return (result, { did, address, verifiableCredentials, publishResult, kycTimestamp })

/-- What `submitKYCData` does once the endpoint has answered: the `try` block's
outcome, with the `catch` that logs the error and raises a new one around its
message (a template literal, so a text). -/
def submitKYCData.settle (ep : Endpoint) : Except JSError SubmitResult × List Effect :=
  match submitKYCData.attempt ep with
  | .ok (result, record) =>
      (.ok record, [.consoleLogValue "✅ KYC submission successful:" result])
  | .error error =>
      (.error (errorOf ("KYC submission failed: " ++ error.message)),
       [.consoleError "❌ KYC submission failed:" error])

/-- The function `submitKYCData`: what it returns or raises, and its effects. -/
def submitKYCData (kycData : Payload) (ep : Endpoint) :
    Except JSError SubmitResult × List Effect :=
  ((submitKYCData.settle ep).1, submitKYCData.request kycData ++ (submitKYCData.settle ep).2)

/-- The part of `handleSubmit` that runs at the click, up to the `await` on the
endpoint: the new state, the effects, and the payload of the request now
outstanding (`none` when the handler returned early). -/
def handleSubmit.start (nowISO : String) (s : State) :
    State × List Effect × Option Payload :=
  if s.currentStep ≠ totalSteps then
    (s, [.preventDefault, .consoleLog "❌ Submit blocked - not on final step"], none)
  else
    match validateStep s.currentStep s with
    | (s1, false) => (s1, [.preventDefault], none)
    | (s1, true) =>
      let kycData := transformToBackendFormat nowISO s.formData
      ({ s1 with isSubmitting := true },
       [.preventDefault, .consoleLog "🚀 Manual form submission triggered",
        .consoleLogPayload "KYC Form Submitted:" kycData] ++ submitKYCData.request kycData,
       some kycData)

/-- The part of `handleSubmit` that runs when the endpoint has answered, on the state
of that moment: the setters after the `await`, the `catch` and the `finally`. -/
def handleSubmit.finish (ep : Endpoint) (s : State) : State × List Effect :=
  match submitKYCData.settle ep with
  | (.ok result, fx) =>
      ({ s with submitResult := some result, currentStep := totalSteps + 1,
                isSubmitting := false }, fx)
  | (.error error, fx) =>
      ({ s with isSubmitting := false },
       fx ++ [.consoleError "KYC submission error:" error,
              .alert ("KYC submission failed: " ++ error.message)])

/-- The handler `handleSubmit` run to its end with no other event in between. -/
def handleSubmit (nowISO : String) (ep : Endpoint) (s : State) : State × List Effect :=
  match handleSubmit.start nowISO s with
  | (s1, fx, none) => (s1, fx)
  | (s1, fx, some _) => ((handleSubmit.finish ep s1).1, fx ++ (handleSubmit.finish ep s1).2)

/-- The submit button of the navigation bar.  The form is rendered while
`currentStep <= totalSteps`, and on it the submit button replaces the Next button
once `currentStep < totalSteps` fails.  The button is disabled while `isSubmitting`;
its click handler logs and calls `handleSubmit`.  A click on a button that is
disabled or not rendered runs nothing. -/
def submitButton.rendered (s : State) : Bool :=
  decide (s.currentStep ≤ totalSteps) && !decide (s.currentStep < totalSteps)

/-- The `disabled` attribute of the submit button. -/
def submitButton.disabled (s : State) : Bool :=
  s.isSubmitting

/-- A click on the submit button. -/
def submitButton.click (nowISO : String) (ep : Endpoint) (s : State) : State × List Effect :=
  if submitButton.rendered s && !submitButton.disabled s then
    ((handleSubmit nowISO ep s).1,
     [.preventDefault, .consoleLog "🎯 Submit button clicked explicitly"]
       ++ (handleSubmit nowISO ep s).2)
  else
    (s, [])

/-! ## Field edits -/

/-- What `handleInputChange` reads of `e.target`.  It looks at `checked` only for a
checkbox and at `files` only for a file input. -/
structure ChangeEvent where
  name : String
  value : String
  type : String
  checked : Bool
  files : List FileRef

/-- The value `handleInputChange` stores: `checked` for a checkbox, `files[0]` for a
file input (`undefined` when the selection is empty), `value` otherwise. -/
def ChangeEvent.stored (e : ChangeEvent) : FieldValue :=
  if e.type = "checkbox" then .flag e.checked
  else if e.type = "file" then
    match e.files with
    | [] => .undefined
    | f :: _ => .file f
  else .text e.value

/-- The object `{ ...prev, [name]: "" }` on the error map. -/
def clearError : List (String × String) → String → List (String × String)
  | [], name => [(name, "")]
  | (k, w) :: rest, name =>
      if k = name then (k, "") :: rest else (k, w) :: clearError rest name

/-- The names every object inherits from `Object.prototype`. -/
def objectPrototypeNames : List String :=
  [ "constructor", "__proto__", "hasOwnProperty", "isPrototypeOf", "propertyIsEnumerable",
    "toLocaleString", "toString", "valueOf", "__defineGetter__", "__defineSetter__",
    "__lookupGetter__", "__lookupSetter__" ]

/-- The test `errors[name]`: an own property counts when it is a non-empty string;
without an own property the read falls to `Object.prototype`, whose members are all
truthy. -/
def errorRecorded (errors : List (String × String)) (name : String) : Bool :=
  match errors.lookup name with
  | some msg => msg != ""
  | none => objectPrototypeNames.contains name

/-- The handler `handleInputChange`. -/
def handleInputChange (e : ChangeEvent) (s : State) : State × List Effect :=
  let s1 := { s with formData := s.formData.set e.name e.stored }
  if errorRecorded s.errors e.name then
    ({ s1 with errors := clearError s.errors e.name }, [.preventDefault])
  else
    (s1, [.preventDefault])

/-! ## Sequences of operations -/

/-- One call of a handler of the component. -/
inductive Op where
  | change (e : ChangeEvent) : Op
  | next : Op
  | prev : Op
  | submit (nowISO : String) (ep : Endpoint) : Op

/-- The state after one operation. -/
def Op.run : Op → State → State
  | .change e, s => (handleInputChange e s).1
  | .next, s => nextStep s
  | .prev, s => prevStep s
  | .submit nowISO ep, s => (handleSubmit nowISO ep s).1

/-- The state after a sequence of operations, first to last. -/
def runOps : List Op → State → State
  | [], s => s
  | op :: rest, s => runOps rest (op.run s)

/-! ## The result page -/

/-- The condition under which the result page is rendered:
`currentStep === totalSteps + 1 && submitResult`. -/
def successPage.rendered (s : State) : Bool :=
  decide (s.currentStep = totalSteps + 1) && s.submitResult.isSome

/-- The length of a string in UTF-16 code units. -/
def utf16Length (s : String) : Nat :=
  s.foldl (fun n c => n + (if c.val < 0x10000 then 1 else 2)) 0

/-- The read `v.length`: it raises on `null` and `undefined`, counts the items of an
array and the code units of a string, is the own property of an object, and is
`undefined` on a boolean or a number. -/
def JSVal.readLength (v : JSVal) : Except JSError JSVal :=
  match v with
  | .undefined =>
      .error ⟨"TypeError", "Cannot read properties of undefined (reading 'length')"⟩
  | .null =>
      .error ⟨"TypeError", "Cannot read properties of null (reading 'length')"⟩
  | .arr items => .ok (.num (items.length != 0) (toString items.length))
  | .str s => .ok (.num (utf16Length s != 0) (toString (utf16Length s)))
  | .obj props => .ok ((props.lookup "length").getD .undefined)
  | _ => .ok .undefined

/-- What the result page reads of the stored record. -/
structure SuccessPageReads where
  did : JSVal
  address : JSVal
  explorerUrl : JSVal
  transactionHash : JSVal
  credentialCount : JSVal

/-- The property reads of the result page, in the order of the markup:
`submitResult.did`, `submitResult.address`, `submitResult.publishResult.explorerUrl`,
`submitResult.publishResult.transactionHash` and
`submitResult.verifiableCredentials.length`. -/
def successPage.reads (submitResult : SubmitResult) : Except JSError SuccessPageReads := do
  let explorerUrl ← submitResult.publishResult.readProp "explorerUrl"
  let transactionHash ← submitResult.publishResult.readProp "transactionHash"
  let credentialCount ← submitResult.verifiableCredentials.readLength
  return { did := submitResult.did, address := submitResult.address,
           explorerUrl, transactionHash, credentialCount }

/-! ## The rendered form and its events -/

/-- The `onSubmit` handler of the form, `(e) => e.preventDefault()`. -/
def formOnSubmit (s : State) : State × List Effect :=
  (s, [.preventDefault])

/-- The condition under which the form, with its inputs and buttons, is rendered:
`currentStep <= totalSteps`. -/
def formRendered (s : State) : Bool :=
  decide (s.currentStep ≤ totalSteps)

/-- The inputs rendered on each step, each with its `name` and its `type`. -/
def stepInputs (step : Int) : List (String × String) :=
  if step = 1 then
    [ ("firstName", "text"), ("lastName", "text"), ("dateOfBirth", "date"),
      ("gender", "select-one"), ("nationality", "select-one"), ("placeOfBirth", "text"),
      ("email", "email"), ("phoneNumber", "tel") ]
  else if step = 2 then
    [ ("identityDocType", "radio"), ("documentNumber", "text"), ("identityDocument", "file") ]
  else if step = 3 then
    [ ("street", "text"), ("city", "text"), ("state", "text"), ("postalCode", "text"),
      ("country", "select-one"), ("addressDocument", "file") ]
  else if step = 4 then
    [ ("incomeRange", "select-one"), ("employmentStatus", "select-one"),
      ("sourceOfFunds", "select-one"), ("employer", "text"), ("payslip", "file") ]
  else if step = 5 then
    [ ("dataProcessing", "checkbox"), ("kycVerification", "checkbox"),
      ("dataSharing", "checkbox"), ("termsOfService", "checkbox"),
      ("privacyPolicy", "checkbox") ]
  else []

/-- The component between two events: its state and the payloads of the requests
that have been sent and not answered yet. -/
structure Config where
  state : State
  outstanding : List Payload

/-- A freshly mounted form, with no request sent. -/
def initialConfig : Config :=
  { state := initialState, outstanding := [] }

/-- What can happen to the rendered component: a change of one of the inputs of the
current step, a click on one of the three buttons, the answer of the endpoint to the
request at position `i` among the outstanding ones, or the native submit event of
the form (the Enter key in a text field). -/
inductive UIEvent where
  | input (e : ChangeEvent) : UIEvent
  | clickPrevious : UIEvent
  | clickNext : UIEvent
  | clickSubmit (nowISO : String) : UIEvent
  | answer (i : Nat) (ep : Endpoint) : UIEvent
  | formSubmit : UIEvent

/-- The component after an event, or `none` when the event cannot happen: an input of
another step or of a form that is not rendered, a button that is disabled or not
rendered, an answer to a request that is not outstanding.  The Previous button is
disabled on step 1, the Next button is rendered while `currentStep < totalSteps` and
the submit button takes its place after that, disabled while `isSubmitting`.  The
native submit event runs the `onSubmit` handler of the form. -/
def UIEvent.fire : UIEvent → Config → Option Config
  | .input e, c =>
      if formRendered c.state && (stepInputs c.state.currentStep).contains (e.name, e.type) then
        some { c with state := (handleInputChange e c.state).1 }
      else none
  | .clickPrevious, c =>
      if formRendered c.state && !decide (c.state.currentStep = 1) then
        some { c with state := prevStep c.state }
      else none
  | .clickNext, c =>
      if formRendered c.state && decide (c.state.currentStep < totalSteps) then
        some { c with state := nextStep c.state }
      else none
  | .clickSubmit nowISO, c =>
      if submitButton.rendered c.state && !submitButton.disabled c.state then
        match handleSubmit.start nowISO c.state with
        | (s1, _, none) => some { c with state := s1 }
        | (s1, _, some kycData) =>
            some { state := s1, outstanding := c.outstanding ++ [kycData] }
      else none
  | .answer i ep, c =>
      if i < c.outstanding.length then
        some { state := (handleSubmit.finish ep c.state).1,
               outstanding := c.outstanding.eraseIdx i }
      else none
  | .formSubmit, c =>
      if formRendered c.state then
        some { c with state := (formOnSubmit c.state).1 }
      else none

/-- The component after a sequence of events, first to last; `none` when one of them
cannot happen. -/
def runUI : List UIEvent → Config → Option Config
  | [], c => some c
  | ev :: rest, c =>
      match ev.fire c with
      | some c1 => runUI rest c1
      | none => none

/-! ## The wallet address in the header -/

/-- A JavaScript string as the list of its UTF-16 code units, which is what `slice`
and `length` work on. -/
abbrev JSString := List Nat

/-- The code units of a text. -/
def JSString.ofString (s : String) : JSString :=
  s.toList.flatMap fun c =>
    if c.toNat < 0x10000 then [c.toNat]
    else [0xD800 + (c.toNat - 0x10000) / 0x400, 0xDC00 + (c.toNat - 0x10000) % 0x400]

/-- The function `truncateAddress`; `none` stands for an address that is `null` or
`undefined`.  `slice(0, 6)` keeps the first six code units and `slice(-4)` drops all
but the last four. -/
def truncateAddress (address : Option JSString) : JSString :=
  match address with
  | none => []
  | some a =>
      if a.isEmpty then []
      else a.take 6 ++ JSString.ofString "..." ++ a.drop (a.length - 4)

/-! ## Lemmas on the `try` block of `submitKYCData` -/

/-- A value on which one property read succeeds lets every property read succeed. -/
theorem readProp_total_of_ok (v : JSVal) (k : String) (x : JSVal)
    (h : v.readProp k = .ok x) (k' : String) : ∃ y, v.readProp k' = .ok y := by
  cases v <;> simp [JSVal.readProp] at h ⊢

/-- The value of `error || fallback` is never `undefined`. -/
theorem orElse_ne_undefined (error : JSVal) (fallback : String) :
    error.orElse (.str fallback) ≠ .undefined := by
  unfold JSVal.orElse
  split
  · rename_i ht
    intro h
    rw [h] at ht
    simp [JSVal.truthy] at ht
  · intro h
    cases h

/-- The expression `new Error(message)` on a message that converts to a text. -/
theorem newError_of_toStr (m : JSVal) (text : String) (hne : m ≠ .undefined)
    (h : m.toStr = .ok text) : newError m = .ok (errorOf text) := by
  cases m with
  | undefined => exact absurd rfl hne
  | null => simp [newError, h]
  | bool b => simp [newError, h]
  | num nz t => simp [newError, h]
  | str t => simp [newError, h]
  | arr items => simp [newError, h]
  | obj props => simp [newError, h]

/-- The error of `throw new Error(message)` when the message converts to a text. -/
theorem thrownBy_of_toStr (error : JSVal) (fallback text : String)
    (h : (error.orElse (.str fallback)).toStr = .ok text) :
    thrownBy (error.orElse (.str fallback)) = errorOf text := by
  simp [thrownBy, newError_of_toStr _ _ (orElse_ne_undefined error fallback) h]

/-- The message kept from `error || fallback` is the fallback when `error` is not
truthy and the text itself when `error` is a non-empty text. -/
theorem orElse_toStr (error : JSVal) (fallback : String) :
    (error.truthy = false → (error.orElse (.str fallback)).toStr = .ok fallback) ∧
    (∀ text : String, error = .str text → text ≠ "" →
      (error.orElse (.str fallback)).toStr = .ok text) := by
  constructor
  · intro h
    simp [JSVal.orElse, h, JSVal.toStr]
  · intro text h hne
    subst h
    simp [JSVal.orElse, JSVal.truthy, hne, JSVal.toStr]

/-- A non-success status with a readable body raises the body's `error` or the status. -/
theorem attempt_not_ok (status : Nat) (v error : JSVal)
    (hok : (Response.mk status (.parsed v)).ok = false)
    (herr : v.readProp "error" = .ok error) :
    submitKYCData.attempt (.responds ⟨status, .parsed v⟩) =
      .error (thrownBy (error.orElse (.str ("HTTP " ++ toString status)))) := by
  cases hn : newError (error.orElse (.str ("HTTP " ++ toString status))) <;>
    simp [submitKYCData.attempt, hok, herr, hn, thrownBy, bind, Except.bind, throw, throwThe,
      MonadExceptOf.throw, pure, Except.pure]

/-- A body on which a property read raises makes the `try` block raise. -/
theorem attempt_read_fails (status : Nat) (v : JSVal) (key : String) (e : JSError)
    (h : v.readProp key = .error e) :
    ∃ e', submitKYCData.attempt (.responds ⟨status, .parsed v⟩) = .error e' := by
  by_cases hok : (200 ≤ status ∧ status ≤ 299) <;>
  cases v <;> simp [JSVal.readProp] at h <;>
    simp [submitKYCData.attempt, Response.ok, hok, JSVal.readProp, bind, Except.bind, throw,
      throwThe, MonadExceptOf.throw, pure, Except.pure]

/-- A success status with a falsy `success` raises the body's `error` or a fixed text. -/
theorem attempt_flag_falsy (status : Nat) (v flag error : JSVal)
    (hok : (Response.mk status (.parsed v)).ok = true)
    (hflag : v.readProp "success" = .ok flag) (hfalsy : flag.truthy = false)
    (herr : v.readProp "error" = .ok error) :
    submitKYCData.attempt (.responds ⟨status, .parsed v⟩) =
      .error (thrownBy (error.orElse (.str "KYC submission failed"))) := by
  cases hn : newError (error.orElse (.str "KYC submission failed")) <;>
    simp [submitKYCData.attempt, hok, herr, hflag, hfalsy, hn, thrownBy, bind, Except.bind, throw,
      throwThe, MonadExceptOf.throw, pure, Except.pure]

/-- A success status with a truthy `success` makes the `try` block return. -/
theorem attempt_flag_truthy (status : Nat) (v flag : JSVal)
    (hok : (Response.mk status (.parsed v)).ok = true)
    (hflag : v.readProp "success" = .ok flag) (htruthy : flag.truthy = true) :
    ∃ r, submitKYCData.attempt (.responds ⟨status, .parsed v⟩) = .ok (v, r) := by
  obtain ⟨a, ha⟩ := readProp_total_of_ok v _ _ hflag "did"
  obtain ⟨b, hb⟩ := readProp_total_of_ok v _ _ hflag "address"
  obtain ⟨c, hc⟩ := readProp_total_of_ok v _ _ hflag "verifiableCredentials"
  obtain ⟨d, hd⟩ := readProp_total_of_ok v _ _ hflag "publishResult"
  obtain ⟨e, he⟩ := readProp_total_of_ok v _ _ hflag "kycTimestamp"
  simp [submitKYCData.attempt, hok, hflag, htruthy, ha, hb, hc, hd, he, bind, Except.bind,
    throw, throwThe, MonadExceptOf.throw, pure, Except.pure]

/-- The `try` block on a parsed body returns exactly when the status is a success
status and the `success` property reads truthy. -/
theorem attempt_ok_iff (status : Nat) (v : JSVal) :
    (∃ x, submitKYCData.attempt (.responds ⟨status, .parsed v⟩) = .ok x) ↔
      ((Response.mk status (.parsed v)).ok = true ∧
        ∃ flag, v.readProp "success" = .ok flag ∧ flag.truthy = true) := by
  constructor
  · rintro ⟨x, hx⟩
    cases hs : v.readProp "success" with
    | error e =>
      obtain ⟨e', he'⟩ := attempt_read_fails status v _ e hs
      rw [he'] at hx; cases hx
    | ok flag =>
      obtain ⟨error, herr⟩ := readProp_total_of_ok v _ _ hs "error"
      cases hok : (Response.mk status (.parsed v)).ok with
      | false => rw [attempt_not_ok status v error hok herr] at hx; cases hx
      | true =>
        cases ht : flag.truthy with
        | false => rw [attempt_flag_falsy status v flag error hok hs ht herr] at hx; cases hx
        | true => exact ⟨rfl, flag, rfl, ht⟩
  · rintro ⟨hok, flag, hflag, ht⟩
    obtain ⟨r, hr⟩ := attempt_flag_truthy status v flag hok hflag ht
    exact ⟨(v, r), hr⟩

/-- On the final step `handleSubmit` sends the request and then runs its second part. -/
theorem handleSubmit_on_final_step (nowISO : String) (ep : Endpoint) (s : State)
    (hstep : s.currentStep = totalSteps) :
    handleSubmit nowISO ep s =
      ((handleSubmit.finish ep { s with errors := [], isSubmitting := true }).1,
       ([.preventDefault, .consoleLog "🚀 Manual form submission triggered",
         .consoleLogPayload "KYC Form Submitted:" (transformToBackendFormat nowISO s.formData)]
          ++ submitKYCData.request (transformToBackendFormat nowISO s.formData))
        ++ (handleSubmit.finish ep { s with errors := [], isSubmitting := true }).2) := by
  simp [handleSubmit, handleSubmit.start, hstep, validateStep]

/-- The alerts of two lists of effects in a row. -/
theorem alerts_append (xs ys : List Effect) : alerts (xs ++ ys) = alerts xs ++ alerts ys := by
  induction xs with
  | nil => rfl
  | cons x xs ih => cases x <;> simp [alerts, ih]

/-- The requests of two lists of effects in a row. -/
theorem requests_append (xs ys : List Effect) :
    requests (xs ++ ys) = requests xs ++ requests ys := by
  induction xs with
  | nil => rfl
  | cons x xs ih => cases x <;> simp [requests, ih]

/-! ## Step navigation -/

/-- C1: from every step between 1 and `totalSteps + 1`, the step after `nextStep` and
the step after `prevStep` both lie between 1 and `totalSteps`. -/
theorem navigation_stays_in_range (s : State)
    (hlo : 1 ≤ s.currentStep) (hhi : s.currentStep ≤ totalSteps + 1) :
    (1 ≤ (nextStep s).currentStep ∧ (nextStep s).currentStep ≤ totalSteps) ∧
    (1 ≤ (prevStep s).currentStep ∧ (prevStep s).currentStep ≤ totalSteps) := by
  simp only [nextStep, prevStep, validateStep, totalSteps] at *
  omega

/-- The range property at the result step, step 6. -/
theorem navigation_stays_in_range_witness :
    (1 ≤ (nextStep { initialState with currentStep := 6 }).currentStep ∧
      (nextStep { initialState with currentStep := 6 }).currentStep ≤ totalSteps) ∧
    (1 ≤ (prevStep { initialState with currentStep := 6 }).currentStep ∧
      (prevStep { initialState with currentStep := 6 }).currentStep ≤ totalSteps) :=
  navigation_stays_in_range { initialState with currentStep := 6 } (by decide) (by decide)

/-! ## The submit handler -/

/-- C2: on the final step with no submission outstanding, when the endpoint answers
with a success status and a body whose `success` property is truthy, `handleSubmit`
ends on step `totalSteps + 1`, with `submitResult` holding the record that
`submitKYCData` returned, and with `isSubmitting` false. -/
theorem handleSubmit_success (nowISO : String) (s : State) (status : Nat) (v flag : JSVal)
    (hstep : s.currentStep = totalSteps) (_hidle : s.isSubmitting = false)
    (hok : (Response.mk status (.parsed v)).ok = true)
    (hflag : v.readProp "success" = .ok flag) (htruthy : flag.truthy = true) :
    ∃ r : SubmitResult,
      (submitKYCData (transformToBackendFormat nowISO s.formData)
          (.responds ⟨status, .parsed v⟩)).1 = .ok r ∧
      (handleSubmit nowISO (.responds ⟨status, .parsed v⟩) s).1.currentStep = totalSteps + 1 ∧
      (handleSubmit nowISO (.responds ⟨status, .parsed v⟩) s).1.submitResult = some r ∧
      (handleSubmit nowISO (.responds ⟨status, .parsed v⟩) s).1.isSubmitting = false := by
  obtain ⟨r, hr⟩ := attempt_flag_truthy status v flag hok hflag htruthy
  refine ⟨r, ?_, ?_, ?_, ?_⟩ <;>
    simp [handleSubmit_on_final_step _ _ _ hstep, handleSubmit.finish, submitKYCData,
      submitKYCData.settle, hr]

/-- The success property at a fresh form on step 5 and a 200 answer carrying a DID. -/
theorem handleSubmit_success_witness :
    ∃ r : SubmitResult,
      (submitKYCData
          (transformToBackendFormat "2024-05-01T10:00:00.000Z"
            { initialState with currentStep := 5 }.formData)
          (.responds ⟨200, .parsed (.obj [("success", .bool true),
            ("did", .str "did:xrpl:1:abc")])⟩)).1 = .ok r ∧
      (handleSubmit "2024-05-01T10:00:00.000Z"
          (.responds ⟨200, .parsed (.obj [("success", .bool true),
            ("did", .str "did:xrpl:1:abc")])⟩)
          { initialState with currentStep := 5 }).1.currentStep = totalSteps + 1 ∧
      (handleSubmit "2024-05-01T10:00:00.000Z"
          (.responds ⟨200, .parsed (.obj [("success", .bool true),
            ("did", .str "did:xrpl:1:abc")])⟩)
          { initialState with currentStep := 5 }).1.submitResult = some r ∧
      (handleSubmit "2024-05-01T10:00:00.000Z"
          (.responds ⟨200, .parsed (.obj [("success", .bool true),
            ("did", .str "did:xrpl:1:abc")])⟩)
          { initialState with currentStep := 5 }).1.isSubmitting = false :=
  handleSubmit_success "2024-05-01T10:00:00.000Z" { initialState with currentStep := 5 } 200
    (.obj [("success", .bool true), ("did", .str "did:xrpl:1:abc")]) (.bool true)
    rfl rfl (by decide) rfl rfl

/-- C3: on the final step, for every failing submission (the request gets no
response, the body cannot be parsed, the status is not a success status, or the
body has no truthy `success` property), `handleSubmit` ends on the same step, with
`formData` and `submitResult` as they were, with `isSubmitting` false, and has
shown exactly one alert. -/
theorem handleSubmit_failure (nowISO : String) (s : State) (ep : Endpoint)
    (hstep : s.currentStep = totalSteps)
    (hfail : (∃ err, ep = .rejects err) ∨
      (∃ status err, ep = .responds ⟨status, .unparseable err⟩) ∨
      (∃ r, ep = .responds r ∧ r.ok = false) ∨
      (∃ status v, ep = .responds ⟨status, .parsed v⟩ ∧
        ¬ ∃ flag, v.readProp "success" = .ok flag ∧ flag.truthy = true)) :
    (handleSubmit nowISO ep s).1.currentStep = totalSteps ∧
    (handleSubmit nowISO ep s).1.formData = s.formData ∧
    (handleSubmit nowISO ep s).1.submitResult = s.submitResult ∧
    (handleSubmit nowISO ep s).1.isSubmitting = false ∧
    (alerts (handleSubmit nowISO ep s).2).length = 1 := by
  have herr : ∃ e, submitKYCData.attempt ep = .error e := by
    rcases hfail with ⟨err, rfl⟩ | ⟨status, err, rfl⟩ | ⟨r, rfl, hr⟩ | ⟨status, v, rfl, hv⟩
    · exact ⟨err, rfl⟩
    · exact ⟨err, rfl⟩
    · obtain ⟨status, body⟩ := r
      cases body with
      | unparseable err => exact ⟨err, rfl⟩
      | parsed v =>
        cases hx : submitKYCData.attempt (.responds ⟨status, .parsed v⟩) with
        | error e => exact ⟨e, rfl⟩
        | ok x =>
          have := (attempt_ok_iff status v).1 ⟨x, hx⟩
          rw [hr] at this
          exact absurd this.1 (by decide)
    · cases hx : submitKYCData.attempt (.responds ⟨status, .parsed v⟩) with
      | error e => exact ⟨e, rfl⟩
      | ok x => exact absurd ((attempt_ok_iff status v).1 ⟨x, hx⟩).2 hv
  obtain ⟨e, he⟩ := herr
  simp [handleSubmit_on_final_step _ _ _ hstep, handleSubmit.finish, submitKYCData.settle, he,
    hstep, alerts_append, alerts, submitKYCData.request]

/-- The failure property at a fresh form on step 5 and a 500 answer with an empty object. -/
theorem handleSubmit_failure_witness :
    (handleSubmit "2024-05-01T10:00:00.000Z" (.responds ⟨500, .parsed (.obj [])⟩)
        { initialState with currentStep := 5 }).1.currentStep = totalSteps ∧
    (handleSubmit "2024-05-01T10:00:00.000Z" (.responds ⟨500, .parsed (.obj [])⟩)
        { initialState with currentStep := 5 }).1.formData
      = { initialState with currentStep := 5 }.formData ∧
    (handleSubmit "2024-05-01T10:00:00.000Z" (.responds ⟨500, .parsed (.obj [])⟩)
        { initialState with currentStep := 5 }).1.submitResult
      = { initialState with currentStep := 5 }.submitResult ∧
    (handleSubmit "2024-05-01T10:00:00.000Z" (.responds ⟨500, .parsed (.obj [])⟩)
        { initialState with currentStep := 5 }).1.isSubmitting = false ∧
    (alerts (handleSubmit "2024-05-01T10:00:00.000Z" (.responds ⟨500, .parsed (.obj [])⟩)
        { initialState with currentStep := 5 }).2).length = 1 :=
  handleSubmit_failure "2024-05-01T10:00:00.000Z" { initialState with currentStep := 5 }
    (.responds ⟨500, .parsed (.obj [])⟩) rfl
    (Or.inr (Or.inr (Or.inl ⟨⟨500, .parsed (.obj [])⟩, rfl, by decide⟩)))

/-- C4: away from the final step `handleSubmit` returns at once: the state (step,
form data, in-flight flag, result and errors) is unchanged, and its only effects
are `preventDefault` and one console line, so no payload is computed, no request is
sent and no alert is shown. -/
theorem handleSubmit_off_final_step (nowISO : String) (ep : Endpoint) (s : State)
    (hstep : s.currentStep ≠ totalSteps) :
    handleSubmit nowISO ep s =
      (s, [.preventDefault, .consoleLog "❌ Submit blocked - not on final step"]) ∧
    loggedPayloads (handleSubmit nowISO ep s).2 = [] ∧
    requests (handleSubmit nowISO ep s).2 = [] ∧
    alerts (handleSubmit nowISO ep s).2 = [] := by
  have h : handleSubmit nowISO ep s =
      (s, [.preventDefault, .consoleLog "❌ Submit blocked - not on final step"]) := by
    simp [handleSubmit, handleSubmit.start, hstep]
  rw [h]
  exact ⟨rfl, rfl, rfl, rfl⟩

/-- The early return at a fresh form on step 3. -/
theorem handleSubmit_off_final_step_witness :
    handleSubmit "2024-05-01T10:00:00.000Z" (.rejects ⟨"TypeError", "Failed to fetch"⟩)
        { initialState with currentStep := 3 } =
      ({ initialState with currentStep := 3 },
        [.preventDefault, .consoleLog "❌ Submit blocked - not on final step"]) ∧
    loggedPayloads (handleSubmit "2024-05-01T10:00:00.000Z"
        (.rejects ⟨"TypeError", "Failed to fetch"⟩)
        { initialState with currentStep := 3 }).2 = [] ∧
    requests (handleSubmit "2024-05-01T10:00:00.000Z"
        (.rejects ⟨"TypeError", "Failed to fetch"⟩)
        { initialState with currentStep := 3 }).2 = [] ∧
    alerts (handleSubmit "2024-05-01T10:00:00.000Z"
        (.rejects ⟨"TypeError", "Failed to fetch"⟩)
        { initialState with currentStep := 3 }).2 = [] :=
  handleSubmit_off_final_step "2024-05-01T10:00:00.000Z"
    (.rejects ⟨"TypeError", "Failed to fetch"⟩) { initialState with currentStep := 3 }
    (by decide)

/-! ## The outcome of `submitKYCData` -/

/-- C6: for a response whose body parses, `submitKYCData` returns a record exactly
when the status is a success status and the body's `success` property is truthy;
so with any other status it raises, whatever the body carries. -/
theorem submitKYCData_succeeds_iff (kycData : Payload) (status : Nat) (v : JSVal) :
    (∃ r, (submitKYCData kycData (.responds ⟨status, .parsed v⟩)).1 = .ok r) ↔
      ((Response.mk status (.parsed v)).ok = true ∧
        ∃ flag, v.readProp "success" = .ok flag ∧ flag.truthy = true) := by
  rw [← attempt_ok_iff]
  cases hx : submitKYCData.attempt (.responds ⟨status, .parsed v⟩) with
  | error e => simp [submitKYCData, submitKYCData.settle, hx]
  | ok x => simp [submitKYCData, submitKYCData.settle, hx]

/-- C7 fails at a body that parses to `null`: with status 500 the read of
`result.error` raises a `TypeError`, so the error raised in the `try` block is
neither a message of the body nor the one built from the status. -/
theorem attempt_null_body_type_error :
    submitKYCData.attempt (.responds ⟨500, .parsed .null⟩)
      = .error ⟨"TypeError", "Cannot read properties of null (reading 'error')"⟩ ∧
    (⟨"TypeError", "Cannot read properties of null (reading 'error')"⟩ : JSError)
      ≠ errorOf ("HTTP " ++ toString 500) :=
  ⟨rfl, by decide⟩

/-- C8, as stated, fails: with status 200 or 201 and the body `{}` the reason raised
is the fixed text "KYC submission failed", which is not built from the status. -/
theorem success_status_reason_not_from_status :
    submitKYCData.attempt (.responds ⟨200, .parsed (.obj [])⟩)
      = .error ⟨"Error", "KYC submission failed"⟩ ∧
    submitKYCData.attempt (.responds ⟨201, .parsed (.obj [])⟩)
      = .error ⟨"Error", "KYC submission failed"⟩ ∧
    (⟨"Error", "KYC submission failed"⟩ : JSError)
      ≠ errorOf ("HTTP " ++ toString 200) :=
  ⟨rfl, rfl, by decide⟩

/-- C8, amended: for a success status and a body, other than `null`, whose `success`
property is not truthy, when `error || "KYC submission failed"` converts to the text
`reason`, `submitKYCData` raises with that reason; the reason is the fixed text
"KYC submission failed" when the body's `error` is not truthy and the body's `error`
itself when that is a non-empty text; the status is no part of it. -/
theorem success_status_without_flag (kycData : Payload) (status : Nat) (v flag error : JSVal)
    (reason : String)
    (hok : (Response.mk status (.parsed v)).ok = true)
    (hflag : v.readProp "success" = .ok flag) (hfalsy : flag.truthy = false)
    (herr : v.readProp "error" = .ok error)
    (hconv : (error.orElse (.str "KYC submission failed")).toStr = .ok reason) :
    submitKYCData.attempt (.responds ⟨status, .parsed v⟩) = .error ⟨"Error", reason⟩ ∧
    (submitKYCData kycData (.responds ⟨status, .parsed v⟩)).1
      = .error ⟨"Error", "KYC submission failed: " ++ reason⟩ ∧
    (error.truthy = false → reason = "KYC submission failed") ∧
    (∀ text : String, error = .str text → text ≠ "" → reason = text) := by
  have h := attempt_flag_falsy status v flag error hok hflag hfalsy herr
  rw [thrownBy_of_toStr error _ reason hconv] at h
  refine ⟨h, ?_, ?_, ?_⟩
  · simp [submitKYCData, submitKYCData.settle, h, errorOf]
  · intro hf
    have := (orElse_toStr error "KYC submission failed").1 hf
    rw [this] at hconv
    exact (Except.ok.inj hconv).symm
  · intro text ht hne
    have := (orElse_toStr error "KYC submission failed").2 text ht hne
    rw [this] at hconv
    exact (Except.ok.inj hconv).symm

/-- The rejected submission at a 200 answer with `success: false` and a message. -/
theorem success_status_without_flag_witness :
    submitKYCData.attempt (.responds ⟨200, .parsed (.obj [("success", .bool false),
        ("error", .str "Document expired")])⟩)
      = .error ⟨"Error", "Document expired"⟩ ∧
    (submitKYCData (transformToBackendFormat "2024-05-01T10:00:00.000Z" initialFormData)
        (.responds ⟨200, .parsed (.obj [("success", .bool false),
          ("error", .str "Document expired")])⟩)).1
      = .error ⟨"Error", "KYC submission failed: " ++ "Document expired"⟩ ∧
    ((JSVal.str "Document expired").truthy = false →
      "Document expired" = "KYC submission failed") ∧
    (∀ text : String, JSVal.str "Document expired" = .str text → text ≠ "" →
      "Document expired" = text) :=
  success_status_without_flag (transformToBackendFormat "2024-05-01T10:00:00.000Z" initialFormData)
    200 (.obj [("success", .bool false), ("error", .str "Document expired")])
    (.bool false) (.str "Document expired") "Document expired" (by decide) rfl rfl rfl rfl

set_option maxRecDepth 20000 in
/-- C9, as stated, fails at a status 500 whose body is not a JSON text:
`response.json()` is awaited before the status is looked at, so the single alert
carries the parser's message, and the text "HTTP 500" occurs nowhere in it. -/
theorem handleSubmit_unparseable_500_alert :
    alerts (handleSubmit "2024-05-01T10:00:00.000Z"
        (.responds ⟨500, .unparseable ⟨"SyntaxError", "Unexpected token I in JSON at position 0"⟩⟩)
        { initialState with currentStep := 5 }).2
      = ["KYC submission failed: KYC submission failed: Unexpected token I in JSON at position 0"] ∧
    ¬ ("HTTP 500".toList <:+:
        "KYC submission failed: KYC submission failed: Unexpected token I in JSON at position 0".toList) :=
  ⟨rfl, by decide⟩

/-- C9, amended: on the final step, for a non-success status and a body that parses
to a value other than `null`, when `error || "HTTP " + status` converts to the text
`reason`, the single alert of `handleSubmit` ends with that reason, which is "HTTP "
and the status when the body's `error` is not truthy and the body's `error` itself
when that is a non-empty text; for a body that cannot be parsed the alert ends with
the parser's message instead. -/
theorem handleSubmit_non_success_alert (nowISO : String) (s : State) (status : Nat)
    (v error : JSVal) (reason : String) (perr : JSError)
    (hstep : s.currentStep = totalSteps)
    (hok : (Response.mk status (.parsed v)).ok = false)
    (herr : v.readProp "error" = .ok error)
    (hconv : (error.orElse (.str ("HTTP " ++ toString status))).toStr = .ok reason) :
    alerts (handleSubmit nowISO (.responds ⟨status, .parsed v⟩) s).2
      = ["KYC submission failed: " ++ ("KYC submission failed: " ++ reason)] ∧
    (error.truthy = false → reason = "HTTP " ++ toString status) ∧
    (∀ text : String, error = .str text → text ≠ "" → reason = text) ∧
    alerts (handleSubmit nowISO (.responds ⟨status, .unparseable perr⟩) s).2
      = ["KYC submission failed: " ++ ("KYC submission failed: " ++ perr.message)] := by
  have h := attempt_not_ok status v error hok herr
  rw [thrownBy_of_toStr error _ reason hconv] at h
  have hp : submitKYCData.attempt (.responds ⟨status, .unparseable perr⟩) = .error perr := rfl
  refine ⟨?_, ?_, ?_, ?_⟩
  · simp [handleSubmit_on_final_step _ _ _ hstep, handleSubmit.finish, submitKYCData.settle, h,
      alerts_append, alerts, submitKYCData.request, errorOf]
  · intro hf
    have := (orElse_toStr error ("HTTP " ++ toString status)).1 hf
    rw [this] at hconv
    exact (Except.ok.inj hconv).symm
  · intro text ht hne
    have := (orElse_toStr error ("HTTP " ++ toString status)).2 text ht hne
    rw [this] at hconv
    exact (Except.ok.inj hconv).symm
  · simp [handleSubmit_on_final_step _ _ _ hstep, handleSubmit.finish, submitKYCData.settle, hp,
      alerts_append, alerts, submitKYCData.request, errorOf]

/-- The alert at a 500 answer with an empty object, and at one with a truncated body. -/
theorem handleSubmit_non_success_alert_witness :
    alerts (handleSubmit "2024-05-01T10:00:00.000Z" (.responds ⟨500, .parsed (.obj [])⟩)
        { initialState with currentStep := 5 }).2
      = ["KYC submission failed: " ++ ("KYC submission failed: " ++ "HTTP 500")] ∧
    (JSVal.undefined.truthy = false → "HTTP 500" = "HTTP " ++ toString 500) ∧
    (∀ text : String, JSVal.undefined = .str text → text ≠ "" → "HTTP 500" = text) ∧
    alerts (handleSubmit "2024-05-01T10:00:00.000Z"
        (.responds ⟨500, .unparseable ⟨"SyntaxError", "Unexpected end of JSON input"⟩⟩)
        { initialState with currentStep := 5 }).2
      = ["KYC submission failed: " ++ ("KYC submission failed: "
          ++ (⟨"SyntaxError", "Unexpected end of JSON input"⟩ : JSError).message)] :=
  handleSubmit_non_success_alert "2024-05-01T10:00:00.000Z"
    { initialState with currentStep := 5 } 500 (.obj []) .undefined "HTTP 500"
    ⟨"SyntaxError", "Unexpected end of JSON input"⟩ rfl (by decide) rfl rfl

/-- C10, as stated, fails: a request that gets no response and a response rejected by
the server make `submitKYCData` raise the same error value. -/
theorem unreachable_and_rejected_coincide :
    (submitKYCData (transformToBackendFormat "2024-05-01T10:00:00.000Z" initialFormData)
        (.rejects ⟨"TypeError", "Failed to fetch"⟩)).1
      = (submitKYCData (transformToBackendFormat "2024-05-01T10:00:00.000Z" initialFormData)
          (.responds ⟨500, .parsed (.obj [("error", .str "Failed to fetch")])⟩)).1 ∧
    (submitKYCData (transformToBackendFormat "2024-05-01T10:00:00.000Z" initialFormData)
        (.rejects ⟨"TypeError", "Failed to fetch"⟩)).1
      = .error ⟨"Error", "KYC submission failed: Failed to fetch"⟩ :=
  ⟨rfl, rfl⟩

/-- C10, amended: when the request gets no response or the body cannot be parsed,
`submitKYCData` raises a plain `Error` whose message is "KYC submission failed: "
followed by the message of the underlying error; nothing but that message tells it
from the error raised for a response the server rejected. -/
theorem submitKYCData_unreachable (kycData : Payload) (err : JSError) (status : Nat) :
    (submitKYCData kycData (.rejects err)).1
      = .error ⟨"Error", "KYC submission failed: " ++ err.message⟩ ∧
    (submitKYCData kycData (.responds ⟨status, .unparseable err⟩)).1
      = .error ⟨"Error", "KYC submission failed: " ++ err.message⟩ :=
  ⟨rfl, rfl⟩

/-! ## The record returned on success -/

/-- When the `try` block returns, its record holds the five reads of the body. -/
theorem attempt_ok_record (status : Nat) (v : JSVal) (x : JSVal × SubmitResult)
    (h : submitKYCData.attempt (.responds ⟨status, .parsed v⟩) = .ok x) :
    x.1 = v ∧ v.readProp "did" = .ok x.2.did ∧ v.readProp "address" = .ok x.2.address ∧
      v.readProp "verifiableCredentials" = .ok x.2.verifiableCredentials ∧
      v.readProp "publishResult" = .ok x.2.publishResult ∧
      v.readProp "kycTimestamp" = .ok x.2.kycTimestamp := by
  obtain ⟨hok, flag, hflag, htruthy⟩ := (attempt_ok_iff status v).1 ⟨x, h⟩
  obtain ⟨a, ha⟩ := readProp_total_of_ok v _ _ hflag "did"
  obtain ⟨b, hb⟩ := readProp_total_of_ok v _ _ hflag "address"
  obtain ⟨c, hc⟩ := readProp_total_of_ok v _ _ hflag "verifiableCredentials"
  obtain ⟨d, hd⟩ := readProp_total_of_ok v _ _ hflag "publishResult"
  obtain ⟨e, he⟩ := readProp_total_of_ok v _ _ hflag "kycTimestamp"
  have hx : submitKYCData.attempt (.responds ⟨status, .parsed v⟩) = .ok (v, ⟨a, b, c, d, e⟩) := by
    simp [submitKYCData.attempt, hok, hflag, htruthy, ha, hb, hc, hd, he, bind, Except.bind,
      throw, throwThe, MonadExceptOf.throw, pure, Except.pure]
  rw [hx] at h
  cases h
  exact ⟨rfl, ha, hb, hc, hd, he⟩

/-- When `submitKYCData` returns a record, the `try` block returned it. -/
theorem submitKYCData_ok_attempt (kycData : Payload) (ep : Endpoint) (r : SubmitResult)
    (h : (submitKYCData kycData ep).1 = .ok r) :
    ∃ result, submitKYCData.attempt ep = .ok (result, r) := by
  cases hx : submitKYCData.attempt ep with
  | error e => simp [submitKYCData, submitKYCData.settle, hx] at h
  | ok x =>
    simp [submitKYCData, submitKYCData.settle, hx] at h
    exact ⟨x.1, by rw [← h]⟩

/-- C11: when `submitKYCData` returns, the record has the five fields `did`,
`address`, `verifiableCredentials`, `publishResult` and `kycTimestamp`, each the
body's property of the same name; nothing else of the body is kept, so two accepted
bodies that agree on these five properties give the same record. -/
theorem submitKYCData_record (kycData : Payload) (status : Nat) (v : JSVal) (r : SubmitResult)
    (h : (submitKYCData kycData (.responds ⟨status, .parsed v⟩)).1 = .ok r) :
    (v.readProp "did" = .ok r.did ∧ v.readProp "address" = .ok r.address ∧
      v.readProp "verifiableCredentials" = .ok r.verifiableCredentials ∧
      v.readProp "publishResult" = .ok r.publishResult ∧
      v.readProp "kycTimestamp" = .ok r.kycTimestamp) ∧
    ∀ (status' : Nat) (v' : JSVal) (r' : SubmitResult),
      (submitKYCData kycData (.responds ⟨status', .parsed v'⟩)).1 = .ok r' →
      v'.readProp "did" = v.readProp "did" →
      v'.readProp "address" = v.readProp "address" →
      v'.readProp "verifiableCredentials" = v.readProp "verifiableCredentials" →
      v'.readProp "publishResult" = v.readProp "publishResult" →
      v'.readProp "kycTimestamp" = v.readProp "kycTimestamp" →
      r' = r := by
  obtain ⟨res, hres⟩ := submitKYCData_ok_attempt _ _ _ h
  obtain ⟨_, ha, hb, hc, hd, he⟩ := attempt_ok_record status v _ hres
  refine ⟨⟨ha, hb, hc, hd, he⟩, ?_⟩
  intro status' v' r' h' ea eb ec ed ee
  obtain ⟨res', hres'⟩ := submitKYCData_ok_attempt _ _ _ h'
  obtain ⟨_, ha', hb', hc', hd', he'⟩ := attempt_ok_record status' v' _ hres'
  rw [ea, ha] at ha'; rw [eb, hb] at hb'; rw [ec, hc] at hc'; rw [ed, hd] at hd'
  rw [ee, he] at he'
  cases r; cases r'
  simp only [Except.ok.injEq] at ha' hb' hc' hd' he'
  subst ha' hb' hc' hd' he'
  rfl

/-- The record of C11 at a 200 answer that carries a DID, an address and one more
property. -/
theorem submitKYCData_record_witness :
    ((JSVal.obj [("success", .bool true), ("did", .str "did:xrpl:1:abc"),
        ("address", .str "rAbC123"), ("message", .str "ok")]).readProp "did"
        = .ok (JSVal.str "did:xrpl:1:abc") ∧
      (JSVal.obj [("success", .bool true), ("did", .str "did:xrpl:1:abc"),
        ("address", .str "rAbC123"), ("message", .str "ok")]).readProp "address"
        = .ok (JSVal.str "rAbC123") ∧
      (JSVal.obj [("success", .bool true), ("did", .str "did:xrpl:1:abc"),
        ("address", .str "rAbC123"), ("message", .str "ok")]).readProp "verifiableCredentials"
        = .ok JSVal.undefined ∧
      (JSVal.obj [("success", .bool true), ("did", .str "did:xrpl:1:abc"),
        ("address", .str "rAbC123"), ("message", .str "ok")]).readProp "publishResult"
        = .ok JSVal.undefined ∧
      (JSVal.obj [("success", .bool true), ("did", .str "did:xrpl:1:abc"),
        ("address", .str "rAbC123"), ("message", .str "ok")]).readProp "kycTimestamp"
        = .ok JSVal.undefined) ∧
    ∀ (status' : Nat) (v' : JSVal) (r' : SubmitResult),
      (submitKYCData (transformToBackendFormat "2024-05-01T10:00:00.000Z" initialFormData)
        (.responds ⟨status', .parsed v'⟩)).1 = .ok r' →
      v'.readProp "did" = (JSVal.obj [("success", .bool true), ("did", .str "did:xrpl:1:abc"),
        ("address", .str "rAbC123"), ("message", .str "ok")]).readProp "did" →
      v'.readProp "address" = (JSVal.obj [("success", .bool true),
        ("did", .str "did:xrpl:1:abc"), ("address", .str "rAbC123"),
        ("message", .str "ok")]).readProp "address" →
      v'.readProp "verifiableCredentials" = (JSVal.obj [("success", .bool true),
        ("did", .str "did:xrpl:1:abc"), ("address", .str "rAbC123"),
        ("message", .str "ok")]).readProp "verifiableCredentials" →
      v'.readProp "publishResult" = (JSVal.obj [("success", .bool true),
        ("did", .str "did:xrpl:1:abc"), ("address", .str "rAbC123"),
        ("message", .str "ok")]).readProp "publishResult" →
      v'.readProp "kycTimestamp" = (JSVal.obj [("success", .bool true),
        ("did", .str "did:xrpl:1:abc"), ("address", .str "rAbC123"),
        ("message", .str "ok")]).readProp "kycTimestamp" →
      r' = ⟨.str "did:xrpl:1:abc", .str "rAbC123", .undefined, .undefined, .undefined⟩ :=
  submitKYCData_record (transformToBackendFormat "2024-05-01T10:00:00.000Z" initialFormData) 200
    (.obj [("success", .bool true), ("did", .str "did:xrpl:1:abc"),
      ("address", .str "rAbC123"), ("message", .str "ok")])
    ⟨.str "did:xrpl:1:abc", .str "rAbC123", .undefined, .undefined, .undefined⟩ rfl

/-! ## The result page -/

/-- The reads of the result page raise nothing exactly when neither `publishResult`
nor `verifiableCredentials` of the record is `null` or `undefined`. -/
theorem successPage_reads_ok_iff (r : SubmitResult) :
    (∃ reads, successPage.reads r = .ok reads) ↔
      (r.publishResult ≠ .null ∧ r.publishResult ≠ .undefined ∧
        r.verifiableCredentials ≠ .null ∧ r.verifiableCredentials ≠ .undefined) := by
  obtain ⟨did, address, creds, publish, stamp⟩ := r
  cases publish <;> cases creds <;>
    simp [successPage.reads, JSVal.readProp, JSVal.readLength, bind, Except.bind, pure,
      Except.pure]

/-- On the final step, a record returned by `submitKYCData` is stored and the result
page is rendered. -/
theorem handleSubmit_stores (nowISO : String) (s : State) (ep : Endpoint) (r : SubmitResult)
    (hstep : s.currentStep = totalSteps)
    (h : (submitKYCData (transformToBackendFormat nowISO s.formData) ep).1 = .ok r) :
    (handleSubmit nowISO ep s).1.submitResult = some r ∧
      (handleSubmit nowISO ep s).1.currentStep = totalSteps + 1 := by
  obtain ⟨res, hres⟩ := submitKYCData_ok_attempt _ _ _ h
  constructor <;>
    simp [handleSubmit_on_final_step _ _ _ hstep, handleSubmit.finish, submitKYCData.settle,
      hres]

/-- C12, as stated, fails: the answer 200 with the body `{"success": true}` is
accepted, the record stored has no `publishResult`, the result page is rendered,
and its read of `submitResult.publishResult.explorerUrl` raises a `TypeError`. -/
theorem accepted_response_without_publish_result :
    (handleSubmit "2024-05-01T10:00:00.000Z"
        (.responds ⟨200, .parsed (.obj [("success", .bool true)])⟩)
        { initialState with currentStep := 5 }).1.submitResult
      = some ⟨.undefined, .undefined, .undefined, .undefined, .undefined⟩ ∧
    successPage.rendered (handleSubmit "2024-05-01T10:00:00.000Z"
        (.responds ⟨200, .parsed (.obj [("success", .bool true)])⟩)
        { initialState with currentStep := 5 }).1 = true ∧
    successPage.reads ⟨.undefined, .undefined, .undefined, .undefined, .undefined⟩
      = .error ⟨"TypeError", "Cannot read properties of undefined (reading 'explorerUrl')"⟩ :=
  ⟨rfl, rfl, rfl⟩

/-- C12, amended: on the final step, the record stored for an accepted response is
the one `submitKYCData` returned, whose fields are the body's properties as they
come; the reads of the result page raise nothing exactly when neither
`publishResult` nor `verifiableCredentials` of that record is `null` or `undefined`. -/
theorem stored_record_reads (nowISO : String) (s : State) (status : Nat) (v : JSVal)
    (r : SubmitResult) (hstep : s.currentStep = totalSteps)
    (h : (submitKYCData (transformToBackendFormat nowISO s.formData)
      (.responds ⟨status, .parsed v⟩)).1 = .ok r) :
    (handleSubmit nowISO (.responds ⟨status, .parsed v⟩) s).1.submitResult = some r ∧
    v.readProp "publishResult" = .ok r.publishResult ∧
    v.readProp "verifiableCredentials" = .ok r.verifiableCredentials ∧
    ((∃ reads, successPage.reads r = .ok reads) ↔
      (r.publishResult ≠ .null ∧ r.publishResult ≠ .undefined ∧
        r.verifiableCredentials ≠ .null ∧ r.verifiableCredentials ≠ .undefined)) := by
  obtain ⟨res, hres⟩ := submitKYCData_ok_attempt _ _ _ h
  obtain ⟨_, _, _, hc, hd, _⟩ := attempt_ok_record status v _ hres
  exact ⟨(handleSubmit_stores nowISO s _ r hstep h).1, hd, hc, successPage_reads_ok_iff r⟩

/-- The stored record of C12 at a 200 answer with a publish result and one credential. -/
theorem stored_record_reads_witness :
    (handleSubmit "2024-05-01T10:00:00.000Z"
        (.responds ⟨200, .parsed (.obj [("success", .bool true),
          ("verifiableCredentials", .arr [.obj []]),
          ("publishResult", .obj [("transactionHash", .str "0xDEAD")])])⟩)
        { initialState with currentStep := 5 }).1.submitResult
      = some ⟨.undefined, .undefined, .arr [.obj []],
          .obj [("transactionHash", .str "0xDEAD")], .undefined⟩ ∧
    (JSVal.obj [("success", .bool true), ("verifiableCredentials", .arr [.obj []]),
        ("publishResult", .obj [("transactionHash", .str "0xDEAD")])]).readProp "publishResult"
      = .ok (.obj [("transactionHash", .str "0xDEAD")]) ∧
    (JSVal.obj [("success", .bool true), ("verifiableCredentials", .arr [.obj []]),
        ("publishResult", .obj [("transactionHash", .str "0xDEAD")])]).readProp
          "verifiableCredentials"
      = .ok (.arr [.obj []]) ∧
    ((∃ reads, successPage.reads ⟨.undefined, .undefined, .arr [.obj []],
          .obj [("transactionHash", .str "0xDEAD")], .undefined⟩ = .ok reads) ↔
      (JSVal.obj [("transactionHash", .str "0xDEAD")] ≠ .null ∧
        JSVal.obj [("transactionHash", .str "0xDEAD")] ≠ .undefined ∧
        JSVal.arr [.obj []] ≠ .null ∧ JSVal.arr [.obj []] ≠ .undefined)) :=
  stored_record_reads "2024-05-01T10:00:00.000Z" { initialState with currentStep := 5 } 200
    (.obj [("success", .bool true), ("verifiableCredentials", .arr [.obj []]),
      ("publishResult", .obj [("transactionHash", .str "0xDEAD")])])
    ⟨.undefined, .undefined, .arr [.obj []], .obj [("transactionHash", .str "0xDEAD")],
      .undefined⟩
    rfl rfl

/-! ## Invariants of the handlers -/

/-- The handler `handleInputChange` writes neither the step, the in-flight flag nor the result. -/
theorem handleInputChange_frame (e : ChangeEvent) (s : State) :
    (handleInputChange e s).1.currentStep = s.currentStep ∧
      (handleInputChange e s).1.isSubmitting = s.isSubmitting ∧
      (handleInputChange e s).1.submitResult = s.submitResult := by
  unfold handleInputChange
  split <;> exact ⟨rfl, rfl, rfl⟩

/-- The second part of `handleSubmit` either stores a record and moves to the result
step, or only clears the in-flight flag. -/
theorem handleSubmit_finish_cases (ep : Endpoint) (s : State) :
    (∃ r, (submitKYCData.settle ep).1 = .ok r ∧
      (handleSubmit.finish ep s).1 =
        { s with submitResult := some r, currentStep := totalSteps + 1, isSubmitting := false }) ∨
    ((∃ e, (submitKYCData.settle ep).1 = .error e) ∧
      (handleSubmit.finish ep s).1 = { s with isSubmitting := false }) := by
  cases hx : submitKYCData.attempt ep with
  | error e =>
    right
    simp [handleSubmit.finish, submitKYCData.settle, hx]
  | ok x =>
    left
    exact ⟨x.2, by simp [submitKYCData.settle, hx], by simp [handleSubmit.finish, submitKYCData.settle, hx]⟩

/-- The state after `handleSubmit`: untouched away from the final step, and on the
final step the state after its second part. -/
theorem handleSubmit_state (nowISO : String) (ep : Endpoint) (s : State) :
    (s.currentStep ≠ totalSteps ∧ (handleSubmit nowISO ep s).1 = s) ∨
    (s.currentStep = totalSteps ∧ (handleSubmit nowISO ep s).1 =
      (handleSubmit.finish ep { s with errors := [], isSubmitting := true }).1) := by
  by_cases hstep : s.currentStep = totalSteps
  · right
    exact ⟨hstep, by rw [handleSubmit_on_final_step _ _ _ hstep]⟩
  · left
    exact ⟨hstep, by simp [handleSubmit, handleSubmit.start, hstep]⟩

/-- Every operation keeps the step at most `totalSteps + 1` and keeps a result
stored whenever the step is `totalSteps + 1`. -/
theorem op_run_invariant (op : Op) (s : State)
    (hle : s.currentStep ≤ totalSteps + 1)
    (hres : s.currentStep = totalSteps + 1 → s.submitResult.isSome = true) :
    (op.run s).currentStep ≤ totalSteps + 1 ∧
      ((op.run s).currentStep = totalSteps + 1 → (op.run s).submitResult.isSome = true) := by
  cases op with
  | change e =>
    obtain ⟨h1, _, h3⟩ := handleInputChange_frame e s
    simp only [Op.run, h1, h3]
    exact ⟨hle, hres⟩
  | next =>
    simp only [Op.run, nextStep, validateStep, totalSteps] at *
    omega
  | prev =>
    simp only [Op.run, prevStep, totalSteps] at *
    omega
  | submit nowISO ep =>
    simp only [Op.run]
    rcases handleSubmit_state nowISO ep s with ⟨_, h⟩ | ⟨hstep, h⟩
    · rw [h]; exact ⟨hle, hres⟩
    · rw [h]
      rcases handleSubmit_finish_cases ep { s with errors := [], isSubmitting := true } with
        ⟨r, _, hf⟩ | ⟨_, hf⟩
      · rw [hf]; simp
      · rw [hf]; simp [hstep, totalSteps]

/-- The invariant of `op_run_invariant` along a sequence of operations. -/
theorem runOps_invariant (ops : List Op) (s : State)
    (hle : s.currentStep ≤ totalSteps + 1)
    (hres : s.currentStep = totalSteps + 1 → s.submitResult.isSome = true) :
    (runOps ops s).currentStep ≤ totalSteps + 1 ∧
      ((runOps ops s).currentStep = totalSteps + 1 → (runOps ops s).submitResult.isSome = true) := by
  induction ops generalizing s with
  | nil => exact ⟨hle, hres⟩
  | cons op rest ih =>
    obtain ⟨h1, h2⟩ := op_run_invariant op s hle hres
    exact ih (op.run s) h1 h2

/-- C13: in every state reached from the initial state by a sequence of field edits,
`nextStep`, `prevStep` and `handleSubmit` with any answers of the endpoint, the step
`totalSteps + 1` comes with a stored result, so the result page is rendered. -/
theorem result_step_has_result (ops : List Op)
    (h : (runOps ops initialState).currentStep = totalSteps + 1) :
    (runOps ops initialState).submitResult.isSome = true ∧
      successPage.rendered (runOps ops initialState) = true := by
  have hinv := runOps_invariant ops initialState (by decide) (by decide)
  have hsome := hinv.2 h
  exact ⟨hsome, by simp [successPage.rendered, h, hsome]⟩

/-- The result step of C13 after four steps forward and an accepted submission. -/
theorem result_step_has_result_witness :
    (runOps [.next, .next, .next, .next,
        .submit "2024-05-01T10:00:00.000Z"
          (.responds ⟨200, .parsed (.obj [("success", .bool true)])⟩)]
        initialState).submitResult.isSome = true ∧
      successPage.rendered (runOps [.next, .next, .next, .next,
        .submit "2024-05-01T10:00:00.000Z"
          (.responds ⟨200, .parsed (.obj [("success", .bool true)])⟩)]
        initialState) = true :=
  result_step_has_result [.next, .next, .next, .next,
    .submit "2024-05-01T10:00:00.000Z"
      (.responds ⟨200, .parsed (.obj [("success", .bool true)])⟩)] rfl

/-- Removing the only item of a list leaves the empty list. -/
theorem eraseIdx_zero_of_length_one {α : Type} (l : List α) (h : l.length = 1) :
    l.eraseIdx 0 = [] := by
  cases l with
  | nil => simp at h
  | cons p t =>
    cases t with
    | nil => rfl
    | cons q u => simp at h

/-- The first part of `handleSubmit` on the final step. -/
theorem handleSubmit_start_final (nowISO : String) (s : State)
    (hstep : s.currentStep = totalSteps) :
    handleSubmit.start nowISO s =
      ({ s with errors := [], isSubmitting := true },
       [.preventDefault, .consoleLog "🚀 Manual form submission triggered",
         .consoleLogPayload "KYC Form Submitted:" (transformToBackendFormat nowISO s.formData)]
          ++ submitKYCData.request (transformToBackendFormat nowISO s.formData),
       some (transformToBackendFormat nowISO s.formData)) := by
  simp [handleSubmit.start, hstep, validateStep]

/-- One event of the rendered component keeps two facts: a stored result comes with
the result step and no request outstanding, and an outstanding request is the only
one and comes with the in-flight flag. -/
theorem fire_invariant (ev : UIEvent) (c c' : Config) (h : ev.fire c = some c')
    (h1 : c.state.submitResult.isSome = true →
      c.state.currentStep = totalSteps + 1 ∧ c.outstanding = [])
    (h2 : c.outstanding ≠ [] → c.state.isSubmitting = true ∧ c.outstanding.length = 1) :
    (c'.state.submitResult.isSome = true →
      c'.state.currentStep = totalSteps + 1 ∧ c'.outstanding = []) ∧
    (c'.outstanding ≠ [] → c'.state.isSubmitting = true ∧ c'.outstanding.length = 1) := by
  have hform : formRendered c.state = true → c.state.submitResult.isSome = false := by
    intro hf
    cases hs : c.state.submitResult.isSome with
    | false => rfl
    | true =>
      have := (h1 hs).1
      simp [formRendered, this, totalSteps] at hf
  cases ev with
  | input e =>
    simp only [UIEvent.fire] at h
    split at h
    · rename_i hcond
      simp only [Bool.and_eq_true] at hcond
      cases h
      obtain ⟨f1, f2, f3⟩ := handleInputChange_frame e c.state
      simp only [f1, f2, f3]
      exact ⟨h1, h2⟩
    · cases h
  | clickPrevious =>
    simp only [UIEvent.fire] at h
    split at h
    · rename_i hcond
      simp only [Bool.and_eq_true] at hcond
      cases h
      have := hform hcond.1
      simp only [prevStep]
      exact ⟨fun hs => by simp [this] at hs, h2⟩
    · cases h
  | clickNext =>
    simp only [UIEvent.fire] at h
    split at h
    · rename_i hcond
      simp only [Bool.and_eq_true] at hcond
      cases h
      have := hform hcond.1
      simp only [nextStep, validateStep]
      exact ⟨fun hs => by simp [this] at hs, h2⟩
    · cases h
  | clickSubmit nowISO =>
    simp only [UIEvent.fire] at h
    split at h
    · rename_i hcond
      simp only [Bool.and_eq_true, submitButton.rendered, submitButton.disabled,
        Bool.not_eq_true', decide_eq_true_eq, decide_eq_false_iff_not] at hcond
      obtain ⟨⟨hle, hnlt⟩, hidle⟩ := hcond
      have hstep : c.state.currentStep = totalSteps := by omega
      have hnone : c.state.submitResult.isSome = false :=
        hform (by simp [formRendered, hle])
      have hout : c.outstanding = [] := by
        by_contra hne
        have := (h2 hne).1
        rw [hidle] at this
        cases this
      rw [handleSubmit_start_final nowISO c.state hstep] at h
      simp only [Option.some.injEq] at h
      subst h
      simp [hout, hnone]
    · cases h
  | answer i ep =>
    simp only [UIEvent.fire] at h
    split at h
    · rename_i hi
      have hne : c.outstanding ≠ [] := by
        intro h0; rw [h0] at hi; simp at hi
      obtain ⟨_, hlen⟩ := h2 hne
      have hnone : c.state.submitResult.isSome = false := by
        cases hs : c.state.submitResult.isSome with
        | false => rfl
        | true => exact absurd (h1 hs).2 hne
      have hi0 : i = 0 := by omega
      have herase : c.outstanding.eraseIdx i = [] := by
        rw [hi0]; exact eraseIdx_zero_of_length_one _ hlen
      simp only [Option.some.injEq] at h
      subst h
      rcases handleSubmit_finish_cases ep c.state with ⟨r, _, hf⟩ | ⟨_, hf⟩
      · simp [hf, herase]
      · simp [hf, herase, hnone]
    · cases h
  | formSubmit =>
    simp only [UIEvent.fire] at h
    split at h
    · cases h
      exact ⟨h1, h2⟩
    · cases h

/-- The two facts of `fire_invariant` along a sequence of events. -/
theorem runUI_invariant (evs : List UIEvent) (c c' : Config) (h : runUI evs c = some c')
    (h1 : c.state.submitResult.isSome = true →
      c.state.currentStep = totalSteps + 1 ∧ c.outstanding = [])
    (h2 : c.outstanding ≠ [] → c.state.isSubmitting = true ∧ c.outstanding.length = 1) :
    (c'.state.submitResult.isSome = true →
      c'.state.currentStep = totalSteps + 1 ∧ c'.outstanding = []) ∧
    (c'.outstanding ≠ [] → c'.state.isSubmitting = true ∧ c'.outstanding.length = 1) := by
  induction evs generalizing c with
  | nil =>
    simp only [runUI, Option.some.injEq] at h
    subst h
    exact ⟨h1, h2⟩
  | cons ev rest ih =>
    simp only [runUI] at h
    cases hf : ev.fire c with
    | none => rw [hf] at h; cases h
    | some c1 =>
      rw [hf] at h
      obtain ⟨k1, k2⟩ := fire_invariant ev c c1 hf h1 h2
      exact ih c1 h k1 k2

/-- On the result step with no request outstanding no event can happen. -/
theorem fire_none_on_result_step (ev : UIEvent) (c : Config)
    (hstep : c.state.currentStep = totalSteps + 1) (hout : c.outstanding = []) :
    ev.fire c = none := by
  cases ev <;>
    simp [UIEvent.fire, formRendered, submitButton.rendered, hstep, hout, totalSteps]

/-- C14: once a result is stored in the component, the step is the result step and
no request is outstanding, so no field edit, `nextStep`, `prevStep` or `handleSubmit`
can be triggered and no answer can arrive any more: the stored result stays as it
is and no other one is stored, so a form completes at most one successful
submission. -/
theorem stored_result_final (evs : List UIEvent) (c : Config) (r : SubmitResult)
    (hrun : runUI evs initialConfig = some c) (hres : c.state.submitResult = some r) :
    (∀ ev : UIEvent, ev.fire c = none) ∧
    ∀ (evs' : List UIEvent) (c' : Config), runUI evs' c = some c' →
      c'.state.submitResult = some r := by
  have hinv := runUI_invariant evs initialConfig c hrun (by intro h; cases h)
    (by intro h; exact absurd rfl h)
  obtain ⟨hstep, hout⟩ := hinv.1 (by rw [hres]; rfl)
  have hnone : ∀ ev : UIEvent, ev.fire c = none :=
    fun ev => fire_none_on_result_step ev c hstep hout
  refine ⟨hnone, ?_⟩
  intro evs' c' h'
  cases evs' with
  | nil =>
    simp only [runUI, Option.some.injEq] at h'
    subst h'
    exact hres
  | cons ev rest =>
    simp only [runUI, hnone ev] at h'
    cases h'

/-- The stored result of C14 after four clicks on Next, a click on the submit button
and an accepted answer with a DID, an address, one credential and a publish
result. -/
theorem stored_result_final_witness :
    (∀ ev : UIEvent, ev.fire
        { state :=
            { initialState with
              currentStep := 6,
              submitResult :=
                some ⟨.str "did:xrpl:1:abc", .str "rAbC123", .arr [.obj []],
                  .obj [("transactionHash", .str "0xDEAD"), ("explorerUrl", .str "https://x")],
                  .undefined⟩ },
          outstanding := [] } = none) ∧
    ∀ (evs' : List UIEvent) (c' : Config),
      runUI evs'
        { state :=
            { initialState with
              currentStep := 6,
              submitResult :=
                some ⟨.str "did:xrpl:1:abc", .str "rAbC123", .arr [.obj []],
                  .obj [("transactionHash", .str "0xDEAD"), ("explorerUrl", .str "https://x")],
                  .undefined⟩ },
          outstanding := [] } = some c' →
      c'.state.submitResult
        = some ⟨.str "did:xrpl:1:abc", .str "rAbC123", .arr [.obj []],
                  .obj [("transactionHash", .str "0xDEAD"), ("explorerUrl", .str "https://x")],
                  .undefined⟩ :=
  stored_result_final
    [.clickNext, .clickNext, .clickNext, .clickNext, .clickSubmit "2024-05-01T10:00:00.000Z",
      .answer 0 (.responds ⟨200, .parsed (.obj [("success", .bool true),
        ("did", .str "did:xrpl:1:abc"), ("address", .str "rAbC123"),
        ("verifiableCredentials", .arr [.obj []]),
        ("publishResult", .obj [("transactionHash", .str "0xDEAD"),
          ("explorerUrl", .str "https://x")])])⟩)]
        { state :=
            { initialState with
              currentStep := 6,
              submitResult :=
                some ⟨.str "did:xrpl:1:abc", .str "rAbC123", .arr [.obj []],
                  .obj [("transactionHash", .str "0xDEAD"), ("explorerUrl", .str "https://x")],
                  .undefined⟩ },
          outstanding := [] }
    ⟨.str "did:xrpl:1:abc", .str "rAbC123", .arr [.obj []],
                  .obj [("transactionHash", .str "0xDEAD"), ("explorerUrl", .str "https://x")],
                  .undefined⟩ rfl rfl

/-! ## A second submit while one is outstanding -/

/-- C5: in every state the component reaches, a request that is outstanding is the
only one and comes with `isSubmitting = true`; the submit button is then disabled,
so a second submit is rejected: the click cannot happen, and the button's handler,
in any state with `isSubmitting = true`, sends no request and changes no state. -/
theorem second_submit_rejected (evs : List UIEvent) (c : Config) (nowISO : String)
    (ep : Endpoint) (hrun : runUI evs initialConfig = some c) (hout : c.outstanding ≠ []) :
    (c.state.isSubmitting = true ∧ c.outstanding.length = 1) ∧
    submitButton.disabled c.state = true ∧
    (UIEvent.clickSubmit nowISO).fire c = none ∧
    (submitButton.click nowISO ep c.state = (c.state, []) ∧
      requests (submitButton.click nowISO ep c.state).2 = []) ∧
    (∀ (s : State) (outstanding : List Payload), s.isSubmitting = true →
      submitButton.click nowISO ep s = (s, []) ∧
      (UIEvent.clickSubmit nowISO).fire ⟨s, outstanding⟩ = none) := by
  have hinv := runUI_invariant evs initialConfig c hrun (by intro h; cases h)
    (by intro h; exact absurd rfl h)
  obtain ⟨hbusy, hlen⟩ := hinv.2 hout
  have hclick : ∀ s : State, s.isSubmitting = true →
      submitButton.click nowISO ep s = (s, []) := by
    intro s hs
    simp [submitButton.click, submitButton.disabled, hs]
  have hfire : ∀ (s : State) (outstanding : List Payload), s.isSubmitting = true →
      (UIEvent.clickSubmit nowISO).fire ⟨s, outstanding⟩ = none := by
    intro s outstanding hs
    simp [UIEvent.fire, submitButton.disabled, hs]
  refine ⟨⟨hbusy, hlen⟩, hbusy, hfire c.state c.outstanding hbusy, ⟨hclick _ hbusy, ?_⟩,
    fun s outstanding hs => ⟨hclick s hs, hfire s outstanding hs⟩⟩
  rw [hclick _ hbusy]
  rfl

/-- The second submit of C5 after four clicks on Next and a click on the submit
button, the request being outstanding. -/
theorem second_submit_rejected_witness :
    ((({ state := { initialState with currentStep := 5, isSubmitting := true },
          outstanding := [transformToBackendFormat "2024-05-01T10:00:00.000Z"
            initialFormData] } : Config).state.isSubmitting = true) ∧
      ({ state := { initialState with currentStep := 5, isSubmitting := true },
          outstanding := [transformToBackendFormat "2024-05-01T10:00:00.000Z"
            initialFormData] } : Config).outstanding.length = 1) ∧
    submitButton.disabled { initialState with currentStep := 5, isSubmitting := true } = true ∧
    (UIEvent.clickSubmit "2024-05-01T10:00:05.000Z").fire
        { state := { initialState with currentStep := 5, isSubmitting := true },
          outstanding := [transformToBackendFormat "2024-05-01T10:00:00.000Z"
            initialFormData] } = none ∧
    (submitButton.click "2024-05-01T10:00:05.000Z"
        (.rejects ⟨"TypeError", "Failed to fetch"⟩)
        { initialState with currentStep := 5, isSubmitting := true }
      = ({ initialState with currentStep := 5, isSubmitting := true }, []) ∧
      requests (submitButton.click "2024-05-01T10:00:05.000Z"
        (.rejects ⟨"TypeError", "Failed to fetch"⟩)
        { initialState with currentStep := 5, isSubmitting := true }).2 = []) ∧
    (∀ (s : State) (outstanding : List Payload), s.isSubmitting = true →
      submitButton.click "2024-05-01T10:00:05.000Z"
        (.rejects ⟨"TypeError", "Failed to fetch"⟩) s = (s, []) ∧
      (UIEvent.clickSubmit "2024-05-01T10:00:05.000Z").fire ⟨s, outstanding⟩ = none) :=
  second_submit_rejected
    [.clickNext, .clickNext, .clickNext, .clickNext, .clickSubmit "2024-05-01T10:00:00.000Z"]
    { state := { initialState with currentStep := 5, isSubmitting := true },
      outstanding := [transformToBackendFormat "2024-05-01T10:00:00.000Z" initialFormData] }
    "2024-05-01T10:00:05.000Z" (.rejects ⟨"TypeError", "Failed to fetch"⟩) rfl
    (List.cons_ne_nil _ _)

/-! ## The payload transform -/

/-- C15: the payload has one identity document, whose type is "government_id" when
`identityDocType` is "national_id" and is `identityDocType` itself for every other
value, such as "passport", "drivers_license" and the empty text. -/
theorem identity_document_type (nowISO : String) (formData : FormData) :
    ∃ doc : IdentityDocument,
      (transformToBackendFormat nowISO formData).identityDocuments = [doc] ∧
      (formData.get "identityDocType" = .text "national_id" →
        doc.type = .text "government_id") ∧
      (formData.get "identityDocType" ≠ .text "national_id" →
        doc.type = formData.get "identityDocType") ∧
      (formData.get "identityDocType" = .text "passport" → doc.type = .text "passport") ∧
      (formData.get "identityDocType" = .text "drivers_license" →
        doc.type = .text "drivers_license") ∧
      (formData.get "identityDocType" = .text "" → doc.type = .text "") := by
  refine ⟨_, rfl, ?_, ?_, ?_, ?_, ?_⟩
  · intro h; simp [h]
  · intro h; simp [h]
  · intro h; simp [h]
  · intro h; simp [h]
  · intro h; simp [h]

/-- C16: whatever the form data, the address proof document of the payload has the
type "utility_bill" and the consents have the IP address "unknown". -/
theorem fixed_sentinels (nowISO : String) (formData : FormData) :
    (transformToBackendFormat nowISO formData).addressProofDocument.type = "utility_bill" ∧
    (transformToBackendFormat nowISO formData).consents.ipAddress = "unknown" :=
  ⟨rfl, rfl⟩

/-- C17: the payload is a function of the form data and the clock.  Two clocks with
the same date part give the same payload; two different clocks give payloads that
agree everywhere except, at most, in the issue date of the address proof document;
and that issue date is the date part of the clock, the same for all form data. -/
theorem transform_deterministic (nowISO nowISO' : String) (formData formData' : FormData) :
    (isoDatePart nowISO = isoDatePart nowISO' →
      transformToBackendFormat nowISO formData = transformToBackendFormat nowISO' formData) ∧
    ((transformToBackendFormat nowISO formData).personalInfo
        = (transformToBackendFormat nowISO' formData).personalInfo ∧
      (transformToBackendFormat nowISO formData).identityDocuments
        = (transformToBackendFormat nowISO' formData).identityDocuments ∧
      (transformToBackendFormat nowISO formData).addressData
        = (transformToBackendFormat nowISO' formData).addressData ∧
      (transformToBackendFormat nowISO formData).addressProofDocument.type
        = (transformToBackendFormat nowISO' formData).addressProofDocument.type ∧
      (transformToBackendFormat nowISO formData).addressProofDocument.file
        = (transformToBackendFormat nowISO' formData).addressProofDocument.file ∧
      (transformToBackendFormat nowISO formData).financialInfo
        = (transformToBackendFormat nowISO' formData).financialInfo ∧
      (transformToBackendFormat nowISO formData).consents
        = (transformToBackendFormat nowISO' formData).consents) ∧
    (transformToBackendFormat nowISO formData).addressProofDocument.issueDate
      = isoDatePart nowISO ∧
    (transformToBackendFormat nowISO formData).addressProofDocument.issueDate
      = (transformToBackendFormat nowISO formData').addressProofDocument.issueDate := by
  refine ⟨?_, ⟨rfl, rfl, rfl, rfl, rfl, rfl, rfl⟩, rfl, rfl⟩
  intro h
  simp [transformToBackendFormat, h]

/-- C18: for every form data the payload has its six sections, with one identity
document, and each field that is neither the identity document type nor a fixed or
clock value is the form field it is read from, unchanged; for the initial form data
every text is empty, every consent is false and both files are `null`. -/
theorem transform_total_value_preserving (nowISO : String) (formData : FormData) :
    (∃ doc : IdentityDocument,
      (transformToBackendFormat nowISO formData).identityDocuments = [doc] ∧
      doc.documentNumber = formData.get "documentNumber" ∧
      doc.issueDate = formData.get "issueDate" ∧
      doc.expiryDate = formData.get "expiryDate" ∧
      doc.file = formData.get "identityDocument") ∧
    (transformToBackendFormat nowISO formData).personalInfo =
      { firstName := formData.get "firstName", lastName := formData.get "lastName",
        dateOfBirth := formData.get "dateOfBirth", nationality := formData.get "nationality",
        phoneNumber := formData.get "phoneNumber", email := formData.get "email",
        gender := formData.get "gender", placeOfBirth := formData.get "placeOfBirth" } ∧
    (transformToBackendFormat nowISO formData).addressData =
      { street := formData.get "street", city := formData.get "city",
        state := formData.get "state", postalCode := formData.get "postalCode",
        country := formData.get "country" } ∧
    (transformToBackendFormat nowISO formData).addressProofDocument.file
      = formData.get "addressDocument" ∧
    (transformToBackendFormat nowISO formData).financialInfo =
      { incomeRange := formData.get "incomeRange",
        employmentStatus := formData.get "employmentStatus",
        sourceOfFunds := formData.get "sourceOfFunds", employer := formData.get "employer" } ∧
    ((transformToBackendFormat nowISO formData).consents.dataProcessing
        = formData.get "dataProcessing" ∧
      (transformToBackendFormat nowISO formData).consents.kycVerification
        = formData.get "kycVerification" ∧
      (transformToBackendFormat nowISO formData).consents.dataSharing
        = formData.get "dataSharing" ∧
      (transformToBackendFormat nowISO formData).consents.termsOfService
        = formData.get "termsOfService" ∧
      (transformToBackendFormat nowISO formData).consents.privacyPolicy
        = formData.get "privacyPolicy") ∧
    transformToBackendFormat nowISO initialFormData =
      { personalInfo :=
          { firstName := .text "", lastName := .text "", dateOfBirth := .text "",
            nationality := .text "", phoneNumber := .text "", email := .text "",
            gender := .text "", placeOfBirth := .text "" },
        identityDocuments :=
          [ { type := .text "", documentNumber := .text "", issueDate := .text "",
              expiryDate := .text "", file := .null } ],
        addressData :=
          { street := .text "", city := .text "", state := .text "", postalCode := .text "",
            country := .text "" },
        addressProofDocument :=
          { type := "utility_bill", issueDate := isoDatePart nowISO, file := .null },
        financialInfo :=
          { incomeRange := .text "", employmentStatus := .text "", sourceOfFunds := .text "",
            employer := .text "" },
        consents :=
          { dataProcessing := .flag false, kycVerification := .flag false,
            dataSharing := .flag false, termsOfService := .flag false,
            privacyPolicy := .flag false, ipAddress := "unknown" } } := by
  refine ⟨⟨_, rfl, rfl, rfl, rfl, rfl⟩, rfl, rfl, rfl, rfl, ⟨rfl, rfl, rfl, rfl, rfl⟩, ?_⟩
  simp [transformToBackendFormat, FormData.get, initialFormData, List.lookup]

/-! ## Forward and backward steps -/

/-- C19: from every step from 1 up to, but not including, `totalSteps`, whatever the
form data, `validateStep` reports valid and `nextStep` moves to the next step. -/
theorem nextStep_advances (s : State)
    (hlo : 1 ≤ s.currentStep) (hhi : s.currentStep < totalSteps) :
    (validateStep s.currentStep s).2 = true ∧
    (nextStep s).currentStep = s.currentStep + 1 := by
  simp only [nextStep, validateStep, totalSteps] at *
  exact ⟨trivial, by omega⟩

/-- The forward step of C19 at a form on step 4 with form data of one unknown field. -/
theorem nextStep_advances_witness :
    (validateStep ({ initialState with currentStep := 4, formData := [("x", .undefined)] }
        : State).currentStep
      { initialState with currentStep := 4, formData := [("x", .undefined)] }).2 = true ∧
    (nextStep { initialState with currentStep := 4, formData := [("x", .undefined)] }).currentStep
      = ({ initialState with currentStep := 4, formData := [("x", .undefined)] }
          : State).currentStep + 1 :=
  nextStep_advances { initialState with currentStep := 4, formData := [("x", .undefined)] }
    (by decide) (by decide)

/-- C20: from every step `prevStep` moves to the larger of the step before and 1: it
stays on step 1 and goes one step back from every later step; it leaves the form
data and the stored result as they are. -/
theorem prevStep_retreats (s : State) :
    (prevStep s).currentStep = max (s.currentStep - 1) 1 ∧
    (s.currentStep = 1 → (prevStep s).currentStep = 1) ∧
    (1 < s.currentStep → (prevStep s).currentStep = s.currentStep - 1) ∧
    (prevStep s).formData = s.formData ∧
    (prevStep s).submitResult = s.submitResult := by
  refine ⟨rfl, ?_, ?_, rfl, rfl⟩
  · intro h; simp only [prevStep]; omega
  · intro h; simp only [prevStep]; omega

/-! ## What starts a submission -/

/-- An event that adds a request to the outstanding ones, or raises the in-flight
flag, is a click on the submit button. -/
theorem fire_starts_submission (ev : UIEvent) (c c' : Config) (h : ev.fire c = some c')
    (hnew : c.outstanding.length < c'.outstanding.length ∨
      (c.state.isSubmitting = false ∧ c'.state.isSubmitting = true)) :
    ∃ nowISO, ev = .clickSubmit nowISO := by
  cases ev with
  | clickSubmit nowISO => exact ⟨nowISO, rfl⟩
  | input e =>
    simp only [UIEvent.fire] at h
    split at h
    · cases h
      obtain ⟨_, f2, _⟩ := handleInputChange_frame e c.state
      simp only [f2] at hnew
      rcases hnew with h0 | ⟨h0, h1⟩
      · omega
      · rw [h0] at h1; cases h1
    · cases h
  | clickPrevious =>
    simp only [UIEvent.fire] at h
    split at h
    · cases h
      simp only [prevStep] at hnew
      rcases hnew with h0 | ⟨h0, h1⟩
      · omega
      · rw [h0] at h1; cases h1
    · cases h
  | clickNext =>
    simp only [UIEvent.fire] at h
    split at h
    · cases h
      simp only [nextStep, validateStep] at hnew
      rcases hnew with h0 | ⟨h0, h1⟩
      · omega
      · rw [h0] at h1; cases h1
    · cases h
  | answer i ep =>
    simp only [UIEvent.fire] at h
    split at h
    · cases h
      rcases hnew with h0 | ⟨_, h1⟩
      · simp only [List.length_eraseIdx] at h0
        split at h0 <;> omega
      · rcases handleSubmit_finish_cases ep c.state with ⟨r, _, hf⟩ | ⟨_, hf⟩ <;>
          simp [hf] at h1
    · cases h
  | formSubmit =>
    simp only [UIEvent.fire] at h
    split at h
    · cases h
      simp only [formOnSubmit] at hnew
      rcases hnew with h0 | ⟨h0, h1⟩
      · omega
      · rw [h0] at h1; cases h1
    · cases h

/-- C21: `nextStep`, also when it arrives at the final step, and the form's native
submit event leave `isSubmitting` and `submitResult` as they are and send no
request; among the events of the rendered component only a click on the submit
button, whose handler calls `handleSubmit`, sends a request or raises the in-flight
flag. -/
theorem submission_only_by_submit_button (s : State) (c c' : Config) (ev : UIEvent) :
    ((nextStep s).isSubmitting = s.isSubmitting ∧ (nextStep s).submitResult = s.submitResult) ∧
    (s.currentStep = totalSteps - 1 →
      (nextStep s).currentStep = totalSteps ∧ (nextStep s).isSubmitting = s.isSubmitting) ∧
    (UIEvent.clickNext.fire c = some c' →
      c'.outstanding = c.outstanding ∧ c'.state.isSubmitting = c.state.isSubmitting ∧
        c'.state.submitResult = c.state.submitResult) ∧
    ((formOnSubmit s).1 = s ∧ requests (formOnSubmit s).2 = []) ∧
    (UIEvent.formSubmit.fire c = some c' → c' = c) ∧
    (ev.fire c = some c' →
      (c.outstanding.length < c'.outstanding.length ∨
        (c.state.isSubmitting = false ∧ c'.state.isSubmitting = true)) →
      ∃ nowISO, ev = .clickSubmit nowISO) := by
  refine ⟨⟨rfl, rfl⟩, ?_, ?_, ⟨rfl, rfl⟩, ?_, fire_starts_submission ev c c'⟩
  · intro h
    simp only [nextStep, validateStep, totalSteps] at *
    exact ⟨by omega, trivial⟩
  · intro h
    simp only [UIEvent.fire] at h
    split at h
    · cases h; exact ⟨rfl, rfl, rfl⟩
    · cases h
  · intro h
    simp only [UIEvent.fire] at h
    split at h
    · cases h; rfl
    · cases h

/-! ## Navigation while a submission is outstanding -/

/-- C22, as stated, fails: with a submission outstanding on the final step `prevStep`
moves to step 4, and in the rendered component a click on Previous between the
click on the submit button and a failing answer leaves the form on step 4. -/
theorem previous_while_submitting :
    (prevStep { initialState with currentStep := 5, isSubmitting := true }).currentStep = 4 ∧
    (runUI [.clickNext, .clickNext, .clickNext, .clickNext,
        .clickSubmit "2024-05-01T10:00:00.000Z", .clickPrevious,
        .answer 0 (.responds ⟨500, .parsed (.obj [])⟩)] initialConfig).map
      (fun c => (c.state.currentStep, c.state.isSubmitting)) = some (4, false) :=
  ⟨rfl, rfl⟩

/-- C22, amended: `nextStep` and `prevStep` do not look at `isSubmitting`: with a
submission outstanding they move to the smaller of the next step and `totalSteps`
and to the larger of the step before and 1, the Previous button on the final step
still works, and a failing answer leaves the step where it is at that moment. -/
theorem navigation_while_submitting (s : State) (outstanding : List Payload) (ep : Endpoint)
    (e : JSError) (hbusy : s.isSubmitting = true)
    (hfail : (submitKYCData.settle ep).1 = .error e) :
    (nextStep s).currentStep = min (s.currentStep + 1) totalSteps ∧
    (prevStep s).currentStep = max (s.currentStep - 1) 1 ∧
    ((nextStep s).isSubmitting = true ∧ (prevStep s).isSubmitting = true) ∧
    (s.currentStep = totalSteps →
      UIEvent.clickPrevious.fire ⟨s, outstanding⟩ = some ⟨prevStep s, outstanding⟩) ∧
    (handleSubmit.finish ep s).1.currentStep = s.currentStep ∧
    (handleSubmit.finish ep (prevStep s)).1.currentStep = max (s.currentStep - 1) 1 := by
  have hfin : ∀ t : State, (handleSubmit.finish ep t).1.currentStep = t.currentStep := by
    intro t
    rcases handleSubmit_finish_cases ep t with ⟨r, hr, _⟩ | ⟨_, hf⟩
    · rw [hfail] at hr; cases hr
    · rw [hf]
  refine ⟨rfl, rfl, ⟨hbusy, hbusy⟩, ?_, hfin s, hfin (prevStep s)⟩
  intro hstep
  simp [UIEvent.fire, formRendered, hstep, totalSteps]

/-- The navigation of C22 on the final step, with one request outstanding and an
answer 500 with an empty object. -/
theorem navigation_while_submitting_witness :
    (nextStep { initialState with currentStep := 5, isSubmitting := true }).currentStep
      = min (({ initialState with currentStep := 5, isSubmitting := true } : State).currentStep
          + 1) totalSteps ∧
    (prevStep { initialState with currentStep := 5, isSubmitting := true }).currentStep
      = max (({ initialState with currentStep := 5, isSubmitting := true } : State).currentStep
          - 1) 1 ∧
    ((nextStep { initialState with currentStep := 5, isSubmitting := true }).isSubmitting = true ∧
      (prevStep { initialState with currentStep := 5, isSubmitting := true }).isSubmitting
        = true) ∧
    (({ initialState with currentStep := 5, isSubmitting := true } : State).currentStep
        = totalSteps →
      UIEvent.clickPrevious.fire
          ⟨{ initialState with currentStep := 5, isSubmitting := true }, []⟩
        = some ⟨prevStep { initialState with currentStep := 5, isSubmitting := true }, []⟩) ∧
    (handleSubmit.finish (.responds ⟨500, .parsed (.obj [])⟩)
        { initialState with currentStep := 5, isSubmitting := true }).1.currentStep
      = ({ initialState with currentStep := 5, isSubmitting := true } : State).currentStep ∧
    (handleSubmit.finish (.responds ⟨500, .parsed (.obj [])⟩)
        (prevStep { initialState with currentStep := 5, isSubmitting := true })).1.currentStep
      = max (({ initialState with currentStep := 5, isSubmitting := true } : State).currentStep
          - 1) 1 :=
  navigation_while_submitting { initialState with currentStep := 5, isSubmitting := true } []
    (.responds ⟨500, .parsed (.obj [])⟩)
    (errorOf ("KYC submission failed: " ++ "HTTP 500")) rfl rfl

/-! ## Field edits -/

/-- Reading the property just written gives the value written. -/
theorem FormData.get_set_self (fd : FormData) (key : String) (v : FieldValue) :
    FormData.get (FormData.set fd key v) key = v := by
  induction fd with
  | nil => simp [FormData.set, FormData.get, List.lookup]
  | cons p rest ih =>
    obtain ⟨k, w⟩ := p
    by_cases hk : k = key
    · simp [FormData.set, FormData.get, List.lookup, hk]
    · have hk' : (key == k) = false := by simpa using fun h => hk h.symm
      simp only [FormData.get] at ih
      simp [FormData.set, FormData.get, List.lookup, hk, hk', ih]

/-- Reading another property than the one written gives what it gave before. -/
theorem FormData.get_set_of_ne (fd : FormData) (key other : String) (v : FieldValue)
    (hne : other ≠ key) :
    FormData.get (FormData.set fd key v) other = FormData.get fd other := by
  induction fd with
  | nil =>
    have : (other == key) = false := by simpa using hne
    simp [FormData.set, FormData.get, List.lookup, this]
  | cons p rest ih =>
    obtain ⟨k, w⟩ := p
    simp only [FormData.get] at ih
    by_cases hk : k = key
    · subst hk
      have : (other == k) = false := by simpa using hne
      simp [FormData.set, FormData.get, List.lookup, this]
    · by_cases ho : other = k
      · subst ho
        simp [FormData.set, FormData.get, List.lookup, hk]
      · have : (other == k) = false := by simpa using ho
        simp [FormData.set, FormData.get, List.lookup, hk, this, ih]

/-- Writing a property that exists keeps the names of the properties and their order. -/
theorem FormData.set_keys (fd : FormData) (key : String) (v : FieldValue)
    (hmem : key ∈ fd.map Prod.fst) :
    (FormData.set fd key v).map Prod.fst = fd.map Prod.fst := by
  induction fd with
  | nil => simp at hmem
  | cons p rest ih =>
    obtain ⟨k, w⟩ := p
    by_cases hk : k = key
    · simp [FormData.set, hk]
    · have : key ∈ rest.map Prod.fst := by
        simp only [List.map_cons, List.mem_cons] at hmem
        rcases hmem with h | h
        · exact absurd h.symm hk
        · exact h
      simp [FormData.set, hk, ih this]

/-- The form data after `handleInputChange`. -/
theorem handleInputChange_formData (e : ChangeEvent) (s : State) :
    (handleInputChange e s).1.formData = FormData.set s.formData e.name e.stored := by
  unfold handleInputChange
  split <;> rfl

/-- C23: after `handleInputChange` for the field named `e.name` the form data is the
previous one with that field overwritten and every other field as it was; the
value written is the `checked` flag for a checkbox, the first selected file for a
file input, and the `value` text for every other type. -/
theorem handleInputChange_overwrites (e : ChangeEvent) (s : State) :
    FormData.get (handleInputChange e s).1.formData e.name = e.stored ∧
    (∀ other : String, other ≠ e.name →
      FormData.get (handleInputChange e s).1.formData other = FormData.get s.formData other) ∧
    (e.name ∈ s.formData.map Prod.fst →
      (handleInputChange e s).1.formData.map Prod.fst = s.formData.map Prod.fst) ∧
    (e.type = "checkbox" → e.stored = .flag e.checked) ∧
    (e.type = "file" → ∀ (f : FileRef) (more : List FileRef), e.files = f :: more →
      e.stored = .file f) ∧
    (e.type ≠ "checkbox" → e.type ≠ "file" → e.stored = .text e.value) := by
  rw [handleInputChange_formData]
  refine ⟨FormData.get_set_self _ _ _, fun other h => FormData.get_set_of_ne _ _ _ _ h,
    FormData.set_keys _ _ _, ?_, ?_, ?_⟩
  · intro h; simp [ChangeEvent.stored, h]
  · intro h f more hf; simp [ChangeEvent.stored, h, hf]
  · intro h1 h2; simp [ChangeEvent.stored, h1, h2]

/-- C24 fails at a change event of a file input whose selection is empty: on step 2,
such an event of the `identityDocument` input stores `files[0]`, which is
`undefined`, in place of the `null` the field started with. -/
theorem empty_file_selection_stores_undefined :
    FormData.get initialFormData "identityDocument" = .null ∧
    (runUI [.clickNext, .input ⟨"identityDocument", "", "file", false, []⟩] initialConfig).map
      (fun c => FormData.get c.state.formData "identityDocument") = some .undefined :=
  ⟨rfl, rfl⟩

/-- After `clearError` the name reads as the empty text. -/
theorem lookup_clearError_self (errors : List (String × String)) (name : String) :
    (clearError errors name).lookup name = some "" := by
  induction errors with
  | nil => simp [clearError, List.lookup]
  | cons p rest ih =>
    obtain ⟨k, w⟩ := p
    by_cases hk : k = name
    · simp [clearError, List.lookup, hk]
    · have hk' : (name == k) = false := by simpa using fun h => hk h.symm
      simp [clearError, List.lookup, hk, hk', ih]

/-- After `clearError` every other name reads as before. -/
theorem lookup_clearError_of_ne (errors : List (String × String)) (name other : String)
    (hne : other ≠ name) :
    (clearError errors name).lookup other = errors.lookup other := by
  induction errors with
  | nil =>
    have : (other == name) = false := by simpa using hne
    simp [clearError, List.lookup, this]
  | cons p rest ih =>
    obtain ⟨k, w⟩ := p
    by_cases hk : k = name
    · subst hk
      have : (other == k) = false := by simpa using hne
      simp [clearError, List.lookup, this]
    · by_cases ho : other = k
      · subst ho
        simp [clearError, List.lookup, hk]
      · have : (other == k) = false := by simpa using ho
        simp [clearError, List.lookup, hk, this, ih]

/-- The error map after `handleInputChange`. -/
theorem handleInputChange_errors (e : ChangeEvent) (s : State) :
    (handleInputChange e s).1.errors =
      if errorRecorded s.errors e.name then clearError s.errors e.name else s.errors := by
  unfold handleInputChange
  split <;> rfl

/-- C25: after `handleInputChange` for the field named `e.name` the test
`errors[e.name]` fails, the entry of that name being the empty text or absent, and
the entry of every other name is what it was. -/
theorem handleInputChange_clears_error (e : ChangeEvent) (s : State) :
    errorRecorded (handleInputChange e s).1.errors e.name = false ∧
    ((handleInputChange e s).1.errors.lookup e.name = some "" ∨
      (handleInputChange e s).1.errors.lookup e.name = none) ∧
    (∀ other : String, other ≠ e.name →
      (handleInputChange e s).1.errors.lookup other = s.errors.lookup other) := by
  rw [handleInputChange_errors]
  cases hrec : errorRecorded s.errors e.name with
  | true =>
    simp only [if_true]
    refine ⟨?_, Or.inl (lookup_clearError_self _ _), fun other h =>
      lookup_clearError_of_ne _ _ _ h⟩
    simp [errorRecorded, lookup_clearError_self]
  | false =>
    simp only [Bool.false_eq_true, if_false]
    refine ⟨hrec, ?_, fun _ _ => trivial⟩
    cases hl : s.errors.lookup e.name with
    | none => exact Or.inr rfl
    | some msg =>
      left
      simp only [errorRecorded, hl] at hrec
      simpa using hrec

/-! ## The text of the alert -/

/-- C26: on the final step, when the `try` block of `submitKYCData` raises an error
with the message `r` (the server's message, "HTTP " and the status, "KYC submission
failed", or the message of the transport or parse error), the one alert of
`handleSubmit` is "KYC submission failed: KYC submission failed: " followed by `r`:
the `catch` of `submitKYCData` and the `catch` of `handleSubmit` each put the prefix
in front. -/
theorem alert_has_prefix_twice (nowISO : String) (s : State) (ep : Endpoint) (e : JSError)
    (hstep : s.currentStep = totalSteps) (hfail : submitKYCData.attempt ep = .error e) :
    (submitKYCData (transformToBackendFormat nowISO s.formData) ep).1
      = .error ⟨"Error", "KYC submission failed: " ++ e.message⟩ ∧
    alerts (handleSubmit nowISO ep s).2
      = ["KYC submission failed: KYC submission failed: " ++ e.message] := by
  have hcat : "KYC submission failed: " ++ ("KYC submission failed: " ++ e.message)
      = "KYC submission failed: KYC submission failed: " ++ e.message := by
    rw [← String.append_assoc]; rfl
  constructor
  · simp [submitKYCData, submitKYCData.settle, hfail, errorOf]
  · simp [handleSubmit_on_final_step _ _ _ hstep, handleSubmit.finish, submitKYCData.settle,
      hfail, alerts_append, alerts, submitKYCData.request, errorOf, hcat]

/-- The alert of C26 on the final step at an answer 500 with the body
`{"error": "Document expired"}`. -/
theorem alert_has_prefix_twice_witness :
    (submitKYCData
        (transformToBackendFormat "2024-05-01T10:00:00.000Z"
          ({ initialState with currentStep := 5 } : State).formData)
        (.responds ⟨500, .parsed (.obj [("error", .str "Document expired")])⟩)).1
      = .error ⟨"Error", "KYC submission failed: "
          ++ (⟨"Error", "Document expired"⟩ : JSError).message⟩ ∧
    alerts (handleSubmit "2024-05-01T10:00:00.000Z"
        (.responds ⟨500, .parsed (.obj [("error", .str "Document expired")])⟩)
        { initialState with currentStep := 5 }).2
      = ["KYC submission failed: KYC submission failed: "
          ++ (⟨"Error", "Document expired"⟩ : JSError).message] :=
  alert_has_prefix_twice "2024-05-01T10:00:00.000Z" { initialState with currentStep := 5 }
    (.responds ⟨500, .parsed (.obj [("error", .str "Document expired")])⟩)
    ⟨"Error", "Document expired"⟩ rfl rfl

/-! ## The payslip -/

/-- Two form data that agree on every field but `payslip` give the same payload. -/
theorem transform_congr_payslip (nowISO : String) (fd fd' : FormData)
    (h : ∀ key : String, key ≠ "payslip" → FormData.get fd key = FormData.get fd' key) :
    transformToBackendFormat nowISO fd = transformToBackendFormat nowISO fd' := by
  simp only [transformToBackendFormat,
    h "firstName" (by decide),
    h "lastName" (by decide),
    h "dateOfBirth" (by decide),
    h "nationality" (by decide),
    h "phoneNumber" (by decide),
    h "email" (by decide),
    h "gender" (by decide),
    h "placeOfBirth" (by decide),
    h "identityDocType" (by decide),
    h "documentNumber" (by decide),
    h "issueDate" (by decide),
    h "expiryDate" (by decide),
    h "identityDocument" (by decide),
    h "street" (by decide),
    h "city" (by decide),
    h "state" (by decide),
    h "postalCode" (by decide),
    h "country" (by decide),
    h "addressDocument" (by decide),
    h "incomeRange" (by decide),
    h "employmentStatus" (by decide),
    h "sourceOfFunds" (by decide),
    h "employer" (by decide),
    h "dataProcessing" (by decide),
    h "kycVerification" (by decide),
    h "dataSharing" (by decide),
    h "termsOfService" (by decide),
    h "privacyPolicy" (by decide)]

/-- C27: the payload does not depend on the `payslip` field: form data that differ
only there give the same payload under the same clock, so the selected payslip is
not part of the request and different form data can give one payload. -/
theorem payslip_not_submitted (nowISO : String) (fd fd' : FormData)
    (h : ∀ key : String, key ≠ "payslip" → FormData.get fd key = FormData.get fd' key) :
    transformToBackendFormat nowISO fd = transformToBackendFormat nowISO fd' ∧
    (∀ v : FieldValue, transformToBackendFormat nowISO (FormData.set fd "payslip" v)
      = transformToBackendFormat nowISO fd) ∧
    (initialFormData ≠ FormData.set initialFormData "payslip" (.file ⟨"payslip.pdf"⟩) ∧
      transformToBackendFormat nowISO initialFormData
        = transformToBackendFormat nowISO
            (FormData.set initialFormData "payslip" (.file ⟨"payslip.pdf"⟩))) :=
  ⟨transform_congr_payslip nowISO fd fd' h,
   fun v => transform_congr_payslip nowISO _ _
     (fun key hk => FormData.get_set_of_ne fd "payslip" key v hk),
   by decide,
   transform_congr_payslip nowISO _ _
     (fun key hk => (FormData.get_set_of_ne initialFormData "payslip" key _ hk).symm)⟩

/-- The payload of C27 for the initial form data and for the same with a payslip
selected. -/
theorem payslip_not_submitted_witness :
    transformToBackendFormat "2024-05-01T10:00:00.000Z" initialFormData
      = transformToBackendFormat "2024-05-01T10:00:00.000Z"
          (FormData.set initialFormData "payslip" (.file ⟨"payslip.pdf"⟩)) ∧
    (∀ v : FieldValue, transformToBackendFormat "2024-05-01T10:00:00.000Z"
        (FormData.set initialFormData "payslip" v)
      = transformToBackendFormat "2024-05-01T10:00:00.000Z" initialFormData) ∧
    (initialFormData ≠ FormData.set initialFormData "payslip" (.file ⟨"payslip.pdf"⟩) ∧
      transformToBackendFormat "2024-05-01T10:00:00.000Z" initialFormData
        = transformToBackendFormat "2024-05-01T10:00:00.000Z"
            (FormData.set initialFormData "payslip" (.file ⟨"payslip.pdf"⟩))) :=
  payslip_not_submitted "2024-05-01T10:00:00.000Z" initialFormData
    (FormData.set initialFormData "payslip" (.file ⟨"payslip.pdf"⟩))
    (fun key hk => (FormData.get_set_of_ne initialFormData "payslip" key _ hk).symm)

/-! ## The error map -/

/-- No input of the form has a name inherited from `Object.prototype`. -/
theorem stepInputs_names (step : Int) :
    ∀ p ∈ stepInputs step, objectPrototypeNames.contains p.1 = false := by
  unfold stepInputs
  split_ifs <;> decide

/-- An operation keeps the error map empty, a field edit doing so when its name is
not inherited from `Object.prototype`. -/
theorem op_run_errors (op : Op) (s : State) (hempty : s.errors = [])
    (hname : ∀ e, op = .change e → objectPrototypeNames.contains e.name = false) :
    (op.run s).errors = [] := by
  cases op with
  | change e =>
    have hn := hname e rfl
    simp only [Op.run, handleInputChange_errors, hempty, errorRecorded, List.lookup, hn]
    rfl
  | next => simp [Op.run, nextStep, validateStep]
  | prev => simpa [Op.run, prevStep] using hempty
  | submit nowISO ep =>
    simp only [Op.run]
    rcases handleSubmit_state nowISO ep s with ⟨_, h⟩ | ⟨_, h⟩
    · rw [h]; exact hempty
    · rw [h]
      rcases handleSubmit_finish_cases ep { s with errors := [], isSubmitting := true } with
        ⟨r, _, hf⟩ | ⟨_, hf⟩ <;> rw [hf]

/-- A sequence of operations keeps the error map empty. -/
theorem runOps_errors (ops : List Op) (s : State) (hempty : s.errors = [])
    (hname : ∀ e, Op.change e ∈ ops → objectPrototypeNames.contains e.name = false) :
    (runOps ops s).errors = [] := by
  induction ops generalizing s with
  | nil => exact hempty
  | cons op rest ih =>
    simp only [runOps]
    apply ih
    · exact op_run_errors op s hempty
        (fun e he => hname e (by rw [he]; exact List.mem_cons_self _ _))
    · exact fun e he => hname e (List.mem_cons_of_mem _ he)

/-- C28: in every state reached from the initial one by a sequence of field edits of
inputs of the form (inputs whose name is not inherited from `Object.prototype`),
`nextStep`, `prevStep` and `handleSubmit`, the error map is empty: it holds no
non-empty error, the test `errors[name]` of `handleInputChange` fails for every such
input, and the reset by `validateStep` leaves the state as it is. -/
theorem errors_stay_empty (ops : List Op)
    (hname : ∀ e, Op.change e ∈ ops → objectPrototypeNames.contains e.name = false) :
    (runOps ops initialState).errors = [] ∧
    (∀ (name msg : String),
      (runOps ops initialState).errors.lookup name = some msg → msg = "") ∧
    (∀ e : ChangeEvent, objectPrototypeNames.contains e.name = false →
      errorRecorded (runOps ops initialState).errors e.name = false ∧
      (handleInputChange e (runOps ops initialState)).1.errors = []) ∧
    (∀ step : Int, (validateStep step (runOps ops initialState)).1 = runOps ops initialState) ∧
    (∀ (step : Int) (e : ChangeEvent), (e.name, e.type) ∈ stepInputs step →
      objectPrototypeNames.contains e.name = false) := by
  have hempty := runOps_errors ops initialState rfl hname
  refine ⟨hempty, ?_, ?_, ?_, ?_⟩
  · intro name msg h
    rw [hempty] at h
    simp [List.lookup] at h
  · intro e he
    have hrec : errorRecorded (runOps ops initialState).errors e.name = false := by
      rw [hempty]
      simp only [errorRecorded, List.lookup]
      exact he
    refine ⟨hrec, ?_⟩
    rw [handleInputChange_errors, hrec]
    simpa using hempty
  · intro step
    simp only [validateStep]
    rw [← hempty]
  · intro step e h
    exact stepInputs_names step (e.name, e.type) h

/-- The error map of C28 after an edit of the first name, a step forward, a step
back and a submit attempt. -/
theorem errors_stay_empty_witness :
    (runOps [.change ⟨"firstName", "Ada", "text", false, []⟩, .next, .prev,
        .submit "2024-05-01T10:00:00.000Z" (.rejects ⟨"TypeError", "Failed to fetch"⟩)] initialState).errors = [] ∧
    (∀ (name msg : String),
      (runOps [.change ⟨"firstName", "Ada", "text", false, []⟩, .next, .prev,
        .submit "2024-05-01T10:00:00.000Z" (.rejects ⟨"TypeError", "Failed to fetch"⟩)] initialState).errors.lookup name = some msg → msg = "") ∧
    (∀ e : ChangeEvent, objectPrototypeNames.contains e.name = false →
      errorRecorded (runOps [.change ⟨"firstName", "Ada", "text", false, []⟩, .next, .prev,
        .submit "2024-05-01T10:00:00.000Z" (.rejects ⟨"TypeError", "Failed to fetch"⟩)] initialState).errors e.name = false ∧
      (handleInputChange e (runOps [.change ⟨"firstName", "Ada", "text", false, []⟩, .next, .prev,
        .submit "2024-05-01T10:00:00.000Z" (.rejects ⟨"TypeError", "Failed to fetch"⟩)] initialState)).1.errors = []) ∧
    (∀ step : Int, (validateStep step (runOps [.change ⟨"firstName", "Ada", "text", false, []⟩, .next, .prev,
        .submit "2024-05-01T10:00:00.000Z" (.rejects ⟨"TypeError", "Failed to fetch"⟩)] initialState)).1
      = runOps [.change ⟨"firstName", "Ada", "text", false, []⟩, .next, .prev,
        .submit "2024-05-01T10:00:00.000Z" (.rejects ⟨"TypeError", "Failed to fetch"⟩)] initialState) ∧
    (∀ (step : Int) (e : ChangeEvent), (e.name, e.type) ∈ stepInputs step →
      objectPrototypeNames.contains e.name = false) :=
  errors_stay_empty [.change ⟨"firstName", "Ada", "text", false, []⟩, .next, .prev,
        .submit "2024-05-01T10:00:00.000Z" (.rejects ⟨"TypeError", "Failed to fetch"⟩)]
    (fun e he => by
      simp only [List.mem_cons, Op.change.injEq, List.mem_singleton, reduceCtorEq,
        or_false, List.not_mem_nil] at he
      subst he
      decide)

/-! ## The wallet address in the header -/

/-- C29: `truncateAddress` gives the empty string for an absent or empty address and
otherwise the first six code units of the address, three dots and its last four
code units; the result has at most 13 code units and is shorter than the address
exactly when the address has more than 13; "abc" becomes "abc...abc". -/
theorem truncateAddress_spec (a : JSString) :
    truncateAddress none = [] ∧
    truncateAddress (some []) = [] ∧
    (a ≠ [] → truncateAddress (some a)
      = a.take 6 ++ JSString.ofString "..." ++ a.drop (a.length - 4)) ∧
    (truncateAddress (some a)).length ≤ 13 ∧
    ((truncateAddress (some a)).length < a.length ↔ 13 < a.length) ∧
    (0 < a.length → a.length < 13 → a.length < (truncateAddress (some a)).length) ∧
    truncateAddress (some (JSString.ofString "abc")) = JSString.ofString "abc...abc" := by
  have hdots : JSString.ofString "..." = [46, 46, 46] := by decide
  refine ⟨rfl, rfl, ?_, ?_, ?_, ?_, by decide⟩
  · intro h
    cases a with
    | nil => exact absurd rfl h
    | cons x xs => rfl
  · cases a with
    | nil => simp [truncateAddress]
    | cons x xs =>
      simp only [truncateAddress, List.isEmpty_cons, Bool.false_eq_true, if_false, hdots,
        List.length_append, List.length_take, List.length_drop, List.length_cons,
        List.length_nil]
      omega
  · cases a with
    | nil => simp [truncateAddress]
    | cons x xs =>
      simp only [truncateAddress, List.isEmpty_cons, Bool.false_eq_true, if_false, hdots,
        List.length_append, List.length_take, List.length_drop, List.length_cons,
        List.length_nil]
      omega
  · cases a with
    | nil => simp
    | cons x xs =>
      simp only [truncateAddress, List.isEmpty_cons, Bool.false_eq_true, if_false, hdots,
        List.length_append, List.length_take, List.length_drop, List.length_cons,
        List.length_nil]
      omega

end KYCForm
